import Mathlib

/-!
Verification development for the gsky request-to-tile pipeline.

The Go sources embedded here are:
* `utils/raster_scaler_new.go` — the 8-bit scaler (`scaleNew`);
* `processor/tile_indexer.go`  — the tile indexer (`TileIndexer.Run`,
  `TileIndexer.URLIndexGet`, `doSelectionByIndices`, `doSelectionByRange`,
  `TileIndexer.sendError`);
* `utils/config.go`            — `CheckBandExpressionsComplexity`.

Modelling conventions:
* Go `float64`/`float32` values are modelled as exact rationals `ℚ`.  All
  concrete inputs used in the theorems below are small integers (or small
  decimal fractions), for which the float computations performed by the Go
  code are exact, so the rational model agrees with the float semantics at
  every evaluated input.  The one caveat — the literal `0.1`, which is not
  exactly representable in binary floating point — only feeds an integer
  truncation whose result is unaffected by the representation error at the
  inputs considered.
* Go machine-integer arithmetic (`int8`, `uint8`, `int16`, `uint16`) is
  modelled on `ℤ`/`ℕ` with explicit two's-complement wrapping (`% 256`,
  `% 65536`).
* Go code that can panic (index out of range, integer division by zero,
  nil dereference) is modelled with `Option`/`Except`: `none`/`.error`
  means the Go code panics or aborts on that input.
* Rational arithmetic is performed through the kernel-reducible wrappers
  `qadd`, `qsub`, `qmul`, `qdiv` below, each proved equal to the standard
  `ℚ` operation, so that concrete runs of the embedded functions can be
  evaluated by `decide`.
-/

deriving instance DecidableEq for Except

namespace GSky

/-- Kernel-reducible addition on `ℚ` (the standard `Rat.add` is marked
irreducible and does not evaluate inside `decide`). -/
def qadd (a b : ℚ) : ℚ := mkRat (a.num * b.den + b.num * a.den) (a.den * b.den)

/-- Kernel-reducible subtraction on `ℚ`. -/
def qsub (a b : ℚ) : ℚ := mkRat (a.num * b.den - b.num * a.den) (a.den * b.den)

/-- Kernel-reducible multiplication on `ℚ`. -/
def qmul (a b : ℚ) : ℚ := mkRat (a.num * b.num) (a.den * b.den)

/-- Kernel-reducible division on `ℚ` (`qdiv a 0 = 0`, matching `a / 0 = 0`). -/
def qdiv (a b : ℚ) : ℚ := Rat.divInt (a.num * b.den) (a.den * b.num)

theorem qadd_eq (a b : ℚ) : qadd a b = a + b := by
  have ha : (a.den : ℚ) ≠ 0 := Nat.cast_ne_zero.mpr a.den_nz
  have hb : (b.den : ℚ) ≠ 0 := Nat.cast_ne_zero.mpr b.den_nz
  rw [qadd, Rat.mkRat_eq_div]
  conv_rhs => rw [← Rat.num_div_den a, ← Rat.num_div_den b]
  push_cast
  field_simp

theorem qsub_eq (a b : ℚ) : qsub a b = a - b := by
  have ha : (a.den : ℚ) ≠ 0 := Nat.cast_ne_zero.mpr a.den_nz
  have hb : (b.den : ℚ) ≠ 0 := Nat.cast_ne_zero.mpr b.den_nz
  rw [qsub, Rat.mkRat_eq_div]
  conv_rhs => rw [← Rat.num_div_den a, ← Rat.num_div_den b]
  push_cast
  field_simp
  ring

theorem qmul_eq (a b : ℚ) : qmul a b = a * b := by
  have ha : (a.den : ℚ) ≠ 0 := Nat.cast_ne_zero.mpr a.den_nz
  have hb : (b.den : ℚ) ≠ 0 := Nat.cast_ne_zero.mpr b.den_nz
  rw [qmul, Rat.mkRat_eq_div]
  conv_rhs => rw [← Rat.num_div_den a, ← Rat.num_div_den b]
  push_cast
  field_simp

theorem qdiv_eq (a b : ℚ) : qdiv a b = a / b := by
  have ha : (a.den : ℚ) ≠ 0 := Nat.cast_ne_zero.mpr a.den_nz
  have hb : (b.den : ℚ) ≠ 0 := Nat.cast_ne_zero.mpr b.den_nz
  rcases eq_or_ne b 0 with rfl | hbz
  · simp [qdiv, Rat.divInt_eq_div]
  · have hbn : (b.num : ℚ) ≠ 0 := by
      simpa using Rat.num_ne_zero.mpr hbz
    rw [qdiv, Rat.divInt_eq_div]
    conv_rhs => rw [← Rat.num_div_den a, ← Rat.num_div_den b]
    push_cast
    field_simp

/-- `|q|` computed by case split on the sign, kernel-reducible. -/
def qabs (q : ℚ) : ℚ := if q < 0 then -q else q

theorem qabs_eq (q : ℚ) : qabs q = |q| := by
  rw [qabs]
  split
  · rw [abs_of_neg (by assumption)]
  · rw [abs_of_nonneg (le_of_not_lt (by assumption))]

/-- Go conversion of a float value to a machine integer: truncation toward
zero.  (Out-of-range conversions are implementation-defined in Go; every
use below stays in range.) -/
def goTrunc (q : ℚ) : ℤ := q.num.tdiv q.den

/-- Two's-complement wrap of an integer into `uint8` range `[0, 255]`. -/
def wrapU8 (z : ℤ) : ℤ := z % 256

/-- Two's-complement wrap of an integer into `int8` range `[-128, 127]`. -/
def wrapI8 (z : ℤ) : ℤ := (z + 128) % 256 - 128

/-- Two's-complement wrap of an integer into `uint16` range. -/
def wrapU16 (z : ℤ) : ℤ := z % 65536

/-- Two's-complement wrap of an integer into `int16` range. -/
def wrapI16 (z : ℤ) : ℤ := (z + 32768) % 65536 - 32768

/-- The insertion step of Go's `sort.Slice` insertion sort
(`for j := i; j > 0 && less(j, j-1); j--: swap`): the new element moves
left past every element `y` with `less x y`. -/
def insertG {α : Type} (le : α → α → Bool) (x : α) : List α → List α
  | [] => [x]
  | y :: ys => if le x y then x :: y :: ys else y :: insertG le x ys

/-- Model of Go's `sort.Slice` with comparator `le`.  For the slice lengths
appearing in this development (< 13) `sort.Slice` runs exactly this
insertion sort; the general sortedness/permutation facts proved about it
hold for Go's pdqsort as well. -/
def goSortBy {α : Type} (le : α → α → Bool) (l : List α) : List α :=
  l.foldl (fun acc x => insertG le x acc) []

/-- Go `strings.TrimSpace`, modelled on the character list of the string. -/
def goTrimLeftChars : List Char → List Char
  | [] => []
  | c :: cs => if c.isWhitespace then goTrimLeftChars cs else c :: cs

/-- Right-trim by reversing, left-trimming, reversing back. -/
def goTrimSpace (s : String) : String :=
  ⟨(goTrimLeftChars (goTrimLeftChars s.data).reverse).reverse⟩

/-- Cartesian product of index choices, rightmost list varying fastest —
the odometer order of the `axisIdxCnt` loop in `URLIndexGet`
(`tile_indexer.go` lines 474..546). -/
def cartProd {α : Type} : List (List α) → List (List α)
  | [] => [[]]
  | l :: ls => l.flatMap (fun x => (cartProd ls).map (x :: ·))

/-- Floor of a rational, kernel-reducible (`math.Floor` on exact values). -/
def qfloor (q : ℚ) : ℤ := q.num.fdiv q.den

/-- Structural `Option`-valued traversal of a list (the per-element loops
of the scaler, where an element-level panic aborts the whole call). -/
def mapMO {α β : Type} (f : α → Option β) : List α → Option (List β)
  | [] => some []
  | a :: l =>
    match f a, mapMO f l with
    | some b, some bl => some (b :: bl)
    | _, _ => none

/-! ## The 8-bit scaler: `scaleNew` (utils/raster_scaler_new.go) -/

/-- `processor.ScaleParams` (the `Scale` field is unused by `scaleNew`). -/
structure ScaleParams where
  Offset : ℚ
  Clip : ℚ
  ColourScale : ℤ
deriving DecidableEq

/-- One update of the min/max accumulator in the derivation loops of
`scaleNew`: the `i == 0` special case applies to list index 0 (even though
index 0 may have been skipped as no-data, in which case min/max keep their
zero initial values — the Go loop has exactly this behaviour). -/
def mmStep (i : ℕ) (val : ℚ) (mm : ℚ × ℚ) : ℚ × ℚ :=
  if i = 0 then (val, val)
  else ((if val < mm.1 then val else mm.1), (if val > mm.2 then val else mm.2))

/-- The min/max derivation loop shared by the SignedByte/Byte/Int16/UInt16
branches of `scaleNew` (e.g. lines 20..39): skip samples equal to the
native-typed no-data value, accumulate float min/max of the rest. -/
def deriveMinMax (vals : List ℤ) (noData : ℤ) : ℚ × ℚ :=
  vals.enum.foldl
    (fun mm iv => if iv.2 = noData then mm else mmStep iv.1 (iv.2 : ℚ) mm)
    (0, 0)

/-- The min/max derivation loop of the Float32 branch (lines 226..252):
when `ColourScale > 0` each sample is first normalised (samples whose
normalisation equals the no-data value are skipped). -/
def deriveMinMaxF32 (norm : ℚ → ℚ) (colourScale : ℤ) (tNoData : ℚ)
    (vals : List ℚ) : ℚ × ℚ :=
  vals.enum.foldl
    (fun mm iv =>
      if iv.2 = tNoData then mm
      else if colourScale > 0 then
        let v := norm iv.2
        if v = tNoData then mm else mmStep iv.1 v mm
      else mmStep iv.1 iv.2 mm)
    (0, 0)

/-- Element map of the SignedByte/Int16 branch loops (lines 51..61 and
153..164), parameterised by the two's-complement wrap of the native signed
type.  All arithmetic happens in the native signed integer type; the final
value is converted to `uint8` for the output buffer.  `none` models the Go
runtime panic on integer division by zero (`trange == 0`).  Note the Go
numerator is `value - clip` (not `value - offset`), and for the `int8`
case the multiplier `int8(steps) - 1` wraps to `-1` (since
`int8(256) = 0`). -/
def intLikeElem (wrap : ℤ → ℤ) (noData clip trange : ℤ) (v : ℤ) : Option ℤ :=
  if v = noData then some 255
  else
    let v1 := if v > clip then clip else v
    if trange = 0 then none
    else some (wrapU8 (wrap (wrap ((wrap (v1 - clip)).tdiv trange) * wrap (wrap 256 - 1))))

/-- Element map of the Byte/UInt16 branch loops (lines 102..112 and
205..216), parameterised by the modulus of the native unsigned type.
Unsigned arithmetic wraps modulo `m`; unsigned division is floor division.
`none` models the Go runtime panic on division by zero. -/
def uintLikeElem (m : ℤ) (noData clip trange : ℤ) (v : ℤ) : Option ℤ :=
  if v = noData then some 255
  else
    let v1 := if v > clip then clip else v
    if trange = 0 then none
    else some (wrapU8 ((((v1 - clip) % m) / trange * ((256 % m - 1) % m)) % m))

/-- SignedByte branch of `scaleNew` (lines 13..62).  Data values are `int8`
samples; `noData`, `offset`, `clip` are converted to `int8` by truncation.
When both scale params are zero, min/max are derived from the data and the
max is widened by `0.1` on a tie before being truncated back to `int8`. -/
def scaleNewSignedByte (data : List ℤ) (tNoData : ℚ) (params : ScaleParams) :
    Option (List ℤ) :=
  let noData := wrapI8 (goTrunc tNoData)
  let oc :=
    if params.Clip = 0 ∧ params.Offset = 0 then
      let mm := deriveMinMax data noData
      let mx := if mm.1 = mm.2 then qadd mm.2 (qdiv 1 10) else mm.2
      (wrapI8 (goTrunc mm.1), wrapI8 (goTrunc mx))
    else (wrapI8 (goTrunc params.Offset), wrapI8 (goTrunc params.Clip))
  let trange := wrapI8 (oc.2 - oc.1)
  mapMO (intLikeElem wrapI8 noData oc.2 trange) data

/-- Byte branch of `scaleNew` (lines 64..113).  The scaled values are
written back into the input raster's own `Data` buffer (`t.Data[i] = …`),
and the returned `ByteRaster` is built from that same buffer. -/
def scaleNewByte (data : List ℤ) (tNoData : ℚ) (params : ScaleParams) :
    Option (List ℤ) :=
  let noData := wrapU8 (goTrunc tNoData)
  let oc :=
    if params.Clip = 0 ∧ params.Offset = 0 then
      let mm := deriveMinMax data noData
      let mx := if mm.1 = mm.2 then qadd mm.2 (qdiv 1 10) else mm.2
      (wrapU8 (goTrunc mm.1), wrapU8 (goTrunc mx))
    else (wrapU8 (goTrunc params.Offset), wrapU8 (goTrunc params.Clip))
  let trange := wrapU8 (oc.2 - oc.1)
  mapMO (uintLikeElem 256 noData oc.2 trange) data

/-- Int16 branch of `scaleNew` (lines 115..165). -/
def scaleNewInt16 (data : List ℤ) (tNoData : ℚ) (params : ScaleParams) :
    Option (List ℤ) :=
  let noData := wrapI16 (goTrunc tNoData)
  let oc :=
    if params.Clip = 0 ∧ params.Offset = 0 then
      let mm := deriveMinMax data noData
      let mx := if mm.1 = mm.2 then qadd mm.2 (qdiv 1 10) else mm.2
      (wrapI16 (goTrunc mm.1), wrapI16 (goTrunc mx))
    else (wrapI16 (goTrunc params.Offset), wrapI16 (goTrunc params.Clip))
  let trange := wrapI16 (oc.2 - oc.1)
  mapMO (intLikeElem wrapI16 noData oc.2 trange) data

/-- UInt16 branch of `scaleNew` (lines 167..217). -/
def scaleNewUInt16 (data : List ℤ) (tNoData : ℚ) (params : ScaleParams) :
    Option (List ℤ) :=
  let noData := wrapU16 (goTrunc tNoData)
  let oc :=
    if params.Clip = 0 ∧ params.Offset = 0 then
      let mm := deriveMinMax data noData
      let mx := if mm.1 = mm.2 then qadd mm.2 (qdiv 1 10) else mm.2
      (wrapU16 (goTrunc mm.1), wrapU16 (goTrunc mx))
    else (wrapU16 (goTrunc params.Offset), wrapU16 (goTrunc params.Clip))
  let trange := wrapU16 (oc.2 - oc.1)
  mapMO (uintLikeElem 65536 noData oc.2 trange) data

/-- Element map of the Float32 branch loop (lines 264..289).  The computed
byte is `uint8(floor((v - clip) / trange * 255))` — the Go numerator uses
`clip`, not `offset`.  The subsequent `c < 0` / `c > 255` clamps of the Go
code are preserved although they are dead (`c` is already a `uint8`).
`none` models the float division by zero when `trange == 0` (the Go result
is then an implementation-defined conversion of `±Inf`/`NaN`). -/
def float32Elem (norm : ℚ → ℚ) (colourScale : ℤ) (tNoData clip trange : ℚ)
    (v : ℚ) : Option ℤ :=
  if v = tNoData then some 255
  else if colourScale > 0 ∧ norm v = tNoData then some 255
  else
    let value := if colourScale > 0 then norm v else v
    if trange = 0 then none
    else
      let c := wrapU8 (qfloor (qmul (qdiv (qsub value clip) trange) 255))
      some (if c < 0 then 255 else if c > 255 then 255 else c)

/-- Float32 branch of `scaleNew` (lines 219..290).  `norm` stands for the
`normalise` helper (not part of the provided sources; only invoked when
`ColourScale > 0`). -/
def scaleNewFloat32 (norm : ℚ → ℚ) (data : List ℚ) (tNoData : ℚ)
    (params : ScaleParams) : Option (List ℤ) :=
  let oc :=
    if params.Clip = 0 ∧ params.Offset = 0 then
      let mm := deriveMinMaxF32 norm params.ColourScale tNoData data
      (mm.1, if mm.1 = mm.2 then qadd mm.2 (qdiv 1 10) else mm.2)
    else (params.Offset, params.Clip)
  let trange := qsub oc.2 oc.1
  mapMO (float32Elem norm params.ColourScale tNoData oc.2 trange) data

/-- The tagged raster variant dispatched on by `scaleNew` (element data
buffers plus the no-data value stored as a float). -/
inductive Raster : Type
  | signedByte (data : List ℤ) (noData : ℚ)
  | byte (data : List ℤ) (noData : ℚ)
  | int16 (data : List ℤ) (noData : ℚ)
  | uint16 (data : List ℤ) (noData : ℚ)
  | float32 (data : List ℚ) (noData : ℚ)
deriving DecidableEq

/-- Result of one `scaleNew` call: the output `ByteRaster` data, plus the
state of the input raster's data buffer after the call (the Byte branch
mutates the input in place and returns a raster built from the very same
buffer; every other branch allocates a fresh output buffer). -/
structure ScaleResult where
  outData : List ℤ
  inputAfter : Raster
deriving DecidableEq

/-- `scaleNew` (lines 8..295): dispatch on the raster element type.
`none` models a Go runtime panic (division by zero) on that input. -/
def scaleNew (norm : ℚ → ℚ) (r : Raster) (params : ScaleParams) :
    Option ScaleResult :=
  match r with
  | .signedByte data nd => (scaleNewSignedByte data nd params).map (fun out => ⟨out, r⟩)
  | .byte data nd => (scaleNewByte data nd params).map (fun out => ⟨out, .byte out nd⟩)
  | .int16 data nd => (scaleNewInt16 data nd params).map (fun out => ⟨out, r⟩)
  | .uint16 data nd => (scaleNewUInt16 data nd params).map (fun out => ⟨out, r⟩)
  | .float32 data nd => (scaleNewFloat32 norm data nd params).map (fun out => ⟨out, r⟩)

/-- Modelled from the spec: the corrected linear mapping adopted by §4.6
(`out = floor((v - offset) / (clip - offset) × 255)`, outputs below 0 or
above 255 mapped to the no-data byte 255).  This is the specification-side
definition a refinement of the source scaler is compared against. -/
def specScaledByte (offset clip v : ℚ) : ℤ :=
  let out := ⌊(v - offset) / (clip - offset) * 255⌋
  if out < 0 ∨ out > 255 then 255 else out

/-! ## The tile indexer (processor/tile_indexer.go) -/

/-- `max` on ℚ by comparison (Go `math.Max` on ordinary values). -/
def qmax (a b : ℚ) : ℚ := if a < b then b else a

/-- `min` on ℚ by comparison (Go `math.Min` on ordinary values). -/
def qmin (a b : ℚ) : ℚ := if b < a then b else a

/-- The `1e-06` tolerance used by range-based selection. -/
def selTolerance : ℚ := mkRat 1 1000000

/-- `utils.AxisIdxSelector` / `processor.GeoTileIdxSelector`. -/
structure GeoTileIdxSelector where
  Start : Option ℤ
  End : Option ℤ
  Step : Option ℤ
  IsRange : Bool
  IsAll : Bool
deriving DecidableEq

/-- `processor.GeoTileAxis` (axis selector carried by the request). -/
structure GeoTileAxis where
  Start : Option ℚ
  End : Option ℚ
  InValues : List ℚ
  Order : ℤ
  Aggregate : ℤ
  IdxSelectors : List GeoTileIdxSelector
deriving DecidableEq

/-- `processor.DatasetAxis` (axis descriptor of a dataset in the metadata
response, extended in place by the selection phase).  Timestamps appear as
epoch seconds (`float64(t.Unix())`). -/
structure DatasetAxis where
  Name : String
  Params : List ℚ
  Strides : List ℤ
  Grid : String
  IntersectionIdx : List ℤ
  IntersectionValues : List ℚ
  Order : ℤ
  Aggregate : ℤ
deriving DecidableEq

/-- `processor.GDALDataset`, restricted to the fields the indexer logic
reads.  `TimeStamps` holds epoch seconds. -/
structure GDALDatasetM where
  RawPath : String
  DSName : String
  NameSpace : String
  ArrayType : String
  TimeStamps : List ℚ
  Axes : List DatasetAxis
  IsOutRange : Bool
deriving DecidableEq

/-- `processor.MetadataResponse`. -/
structure MetadataResponse where
  Error : String
  GDALDatasets : List GDALDatasetM
deriving DecidableEq

/-- The Go `for idx := s; idx <= e; idx += st` index sequence, run with
enough fuel to cover the whole range when `st ≥ 1`. -/
def goForLoop (st : ℤ) : ℤ → ℤ → ℕ → List ℤ
  | _, _, 0 => []
  | s, e, f + 1 => if s ≤ e then s :: goForLoop st (s + st) e f else []

/-- Index sequence of a range selector (`doSelectionByIndices`, lines
668..674): `s, s+st, …` while `≤ e`. -/
def rangeIdxSeq (s e st : ℤ) : List ℤ := goForLoop st s e ((e - s).toNat + 1)

/-- Outcome of the selector loop of `doSelectionByIndices` (lines
611..675): a fatal selection error, an early out-of-range return (the
partially appended axis is kept, unsorted), the `IsAll` replacement, or
normal completion. -/
inductive SelLoopResult : Type
  | fail (msg : String)
  | outRange (accIdx : List ℤ) (accVals : List ℚ)
  | allSel
  | done (accIdx : List ℤ) (accVals : List ℚ)
deriving DecidableEq

/-- The selector loop of `doSelectionByIndices`.  `lookup` is the
`idxLookup` set; note that — exactly as in the Go code — only *point*
selectors insert into `lookup`; a range selector filters against it but
never records the indices it appends.  A range selector whose effective
start is negative makes the Go loop index `axis.Params[idx]` with a
negative index, a runtime panic, modelled as `.fail`. -/
def doSelIdxLoop (params : List ℚ) (lookup : List ℤ) (accIdx : List ℤ)
    (accVals : List ℚ) : List GeoTileIdxSelector → SelLoopResult
  | [] => .done accIdx accVals
  | sel :: rest =>
    if sel.IsAll then .allSel
    else if ¬sel.IsRange then
      match sel.Start with
      | none => .fail "starting index is null"
      | some idx =>
        if idx < 0 ∨ idx > (params.length : ℤ) - 1 then .outRange accIdx accVals
        else if idx ∈ lookup then doSelIdxLoop params lookup accIdx accVals rest
        else
          doSelIdxLoop params (idx :: lookup) (accIdx ++ [idx])
            (accVals ++ [params.getD idx.toNat 0]) rest
    else
      let idxStart := sel.Start.getD 0
      let idxEnd := sel.End.getD ((params.length : ℤ) - 1)
      if idxEnd > (params.length : ℤ) - 1 then .outRange accIdx accVals
      else if idxStart > idxEnd then
        .fail "starting index must be lower or equal to ending index"
      else
        let step := sel.Step.getD 1
        if step < 1 then .fail "indexing step must be greater or equal to 1"
        else if idxStart < 0 then .fail "panic: index out of range"
        else
          let idxs := (rangeIdxSeq idxStart idxEnd step).filter (fun i => i ∉ lookup)
          doSelIdxLoop params lookup (accIdx ++ idxs)
            (accVals ++ idxs.map (fun i => params.getD i.toNat 0)) rest

/-- The ascending arg-sort concluding `doSelectionByIndices` (lines
677..698): the gathered `(index, value)` pairs are sorted by index with
the `sort.Slice` comparator `Val <= Val`. -/
def selArgSort (accIdx : List ℤ) (accVals : List ℚ) : List (ℤ × ℚ) :=
  goSortBy (fun a b => decide (a.1 ≤ b.1)) (accIdx.zip accVals)

/-- `doSelectionByIndices` (lines 605..701).  Returns `(outRange, axis)`
on success, mirroring the Go `(bool, error)` plus the in-place mutation of
`axis`. -/
def doSelectionByIndices (axis : DatasetAxis) (tileAxis : GeoTileAxis) :
    Except String (Bool × DatasetAxis) :=
  if axis.Grid ≠ "enum" then
    .error "grid type must be 'enum' for index-based selections"
  else
    match doSelIdxLoop axis.Params [] axis.IntersectionIdx
        axis.IntersectionValues tileAxis.IdxSelectors with
    | .fail msg => .error msg
    | .allSel =>
      .ok (false, { axis with
        IntersectionIdx := (List.range axis.Params.length).map (fun i => (i : ℤ)),
        IntersectionValues := axis.Params })
    | .outRange accIdx accVals =>
      .ok (true, { axis with IntersectionIdx := accIdx, IntersectionValues := accVals })
    | .done accIdx accVals =>
      let sorted := selArgSort accIdx accVals
      .ok (false, { axis with
        IntersectionIdx := sorted.map (·.1),
        IntersectionValues := sorted.map (·.2) })

/-- Nearest-parameter scan of the non-monotonic branch of
`doSelectionByRange` (lines 778..791).  The Go `minDiff` accumulator
starts at `math.MaxFloat64`, modelled by an empty accumulator whose first
comparison always succeeds. -/
def nearestIdx (params : List ℚ) (val : ℚ) : ℕ :=
  ((params.enum.foldl
      (fun st iv =>
        let diff := qabs (qsub iv.2 val)
        match st with
        | none => some (diff, iv.1)
        | some md => if diff < md.1 then some (diff, iv.1) else some md)
      none).map (·.2)).getD 0

/-- The streaming match of the monotonic branch of `doSelectionByRange`
(lines 740..776): walk the parameters once, matching each (sorted)
selector value to the nearest parameter index. -/
def monoScan (allParams sortedIn : List ℚ) (nVals : ℕ) :
    List (ℕ × ℚ) → ℕ → ℚ → List ℤ × List ℚ → List ℤ × List ℚ
  | [], _, _, acc => acc
  | (iv, val) :: rest, iVal, startVal, acc =>
    let valFound :=
      if iv < allParams.length - 1 then decide (val ≥ startVal)
      else decide (qsub startVal val ≤ selTolerance)
    if valFound then
      let axisIdx :=
        if 1 ≤ iv ∧ qabs (qsub startVal (allParams.getD (iv - 1) 0)) ≤ qabs (qsub startVal val)
        then iv - 1 else iv
      let acc1 := (acc.1 ++ [(axisIdx : ℤ)], acc.2 ++ [allParams.getD axisIdx 0])
      if nVals ≤ iVal + 1 then acc1
      else monoScan allParams sortedIn nVals rest (iVal + 1) (sortedIn.getD (iVal + 1) 0) acc1
    else monoScan allParams sortedIn nVals rest iVal startVal acc

/-- `doSelectionByRange` (lines 703..828).  `startTime`/`endTime` are the
request's resolved time window (epoch seconds); a `default`-grid axis with
a nil start time makes the Go code dereference a nil pointer — modelled as
an error.  The Go code also mutates `tileAxis.InValues` when promoting a
bare start (line 708); the model is per-call and does not persist that
mutation. -/
def doSelectionByRange (axis : DatasetAxis) (tileAxis : GeoTileAxis)
    (startTime endTime : Option ℚ) (timeStamps : List ℚ) :
    Except String (Bool × DatasetAxis) :=
  if axis.Grid = "enum" then
    if 0 < axis.Params.length then
      if 0 < tileAxis.InValues.length ∨ (tileAxis.Start.isSome ∧ tileAxis.End.isNone) then
        let inValues0 :=
          if tileAxis.InValues.length = 0 then [tileAxis.Start.getD 0]
          else tileAxis.InValues
        let minVal := axis.Params.foldl (fun m v => if v < m then v else m) (axis.Params.headD 0)
        let maxVal := axis.Params.foldl (fun m v => if m < v then v else m) (axis.Params.getLastD 0)
        let isMonotonic :=
          (axis.Params.zip axis.Params.tail).all (fun p => ¬p.2 < p.1)
        let inValues := inValues0.filter
          (fun v => ¬(selTolerance < qsub minVal v ∨ selTolerance < qsub v maxVal))
        if inValues.length = 0 then .ok (true, axis)
        else if isMonotonic then
          let startVal0 := inValues.headD 0
          let nVals := inValues.length
          let sortedIn :=
            if 1 < inValues.length then goSortBy (fun a b => decide (a ≤ b)) inValues
            else inValues
          let acc := monoScan axis.Params sortedIn nVals axis.Params.enum 0 startVal0
            (axis.IntersectionIdx, axis.IntersectionValues)
          .ok (false, { axis with IntersectionIdx := acc.1, IntersectionValues := acc.2 })
        else
          let picked := inValues.map (fun v => nearestIdx axis.Params v)
          .ok (false, { axis with
            IntersectionIdx := axis.IntersectionIdx ++ picked.map (fun i => (i : ℤ)),
            IntersectionValues := axis.IntersectionValues ++ picked.map (fun i => axis.Params.getD i 0) })
      else
        match tileAxis.Start, tileAxis.End with
        | some startVal, some endVal =>
          if endVal < axis.Params.headD 0 ∨ axis.Params.getLastD 0 < startVal then
            .ok (true, axis)
          else
            let sel := axis.Params.enum.filter (fun iv => startVal ≤ iv.2 ∧ iv.2 < endVal)
            .ok (false, { axis with
              IntersectionIdx := axis.IntersectionIdx ++ sel.map (fun iv => (iv.1 : ℤ)),
              IntersectionValues := axis.IntersectionValues ++ sel.map (·.2) })
        | _, _ => .ok (false, axis)
    else .error ("Indexer error: empty params for 'enum' grid: " ++ axis.Name)
  else if axis.Grid = "default" then
    match startTime with
    | none => .error "panic: nil StartTime dereference"
    | some st =>
      let sel := timeStamps.enum.filter
        (fun it => it.2 = st ∨ (endTime.isSome ∧
          (it.2 = endTime.getD 0 ∨ (st < it.2 ∧ it.2 < endTime.getD 0))))
      if sel.length = 0 then
        .ok (true, { axis with
          IntersectionIdx := axis.IntersectionIdx ++ sel.map (fun iv => (iv.1 : ℤ)),
          IntersectionValues := axis.IntersectionValues ++ sel.map (·.2) })
      else
        .ok (false, { axis with
          IntersectionIdx := axis.IntersectionIdx ++ sel.map (fun iv => (iv.1 : ℤ)),
          IntersectionValues := axis.IntersectionValues ++ sel.map (·.2) })
  else .error ("Indexer error: unknown axis grid type: " ++ axis.Grid)

/-- Abort conditions of the metadata-processing phase: `.soft` models a
selection error reported through `p.sendError(err)` followed by `return`;
`.panic` models a Go runtime panic (nil dereference / index out of
range). -/
inductive IndexerAbort : Type
  | soft (msg : String)
  | panic (msg : String)
deriving DecidableEq

/-- Modelled from the spec: `utils.EmptyTileNS` — the namespace of the
empty-tile sentinel — is defined outside the provided sources; §8 of the
spec fixes it as `empty`. -/
def EmptyTileNS : String := "empty"

/-- Per-axis selection step of the loop at tile_indexer.go lines 365..446,
returning `(outRange, updated axis, updated axisParamsLookup)`.
* an axis found in the request: optional time→enum promotion, copy of
  `Order`/`Aggregate`, then index-based selection (with the homogeneity
  check against `axisParamsLookup`) or range-based selection;
* an axis absent from the request: axis-mapping policy 0 (first index,
  `Order = Aggregate = 1`) or 1 (all indices);
* finally each selected index is multiplied by the axis's first stride
  (lines 448..450; empty `Strides` would panic). -/
def processAxisSelect (reqAxes : List (String × GeoTileAxis)) (axisMapping : ℤ)
    (startTime endTime : Option ℚ) (timeStamps : List ℚ)
    (lookupState : List (String × List ℚ)) (axis0 : DatasetAxis) :
    Except IndexerAbort (Bool × DatasetAxis × List (String × List ℚ)) :=
  match List.lookup axis0.Name reqAxes with
    | some tileAxis =>
      let axis1 :=
        if axis0.Name = "time" ∧ ((tileAxis.Start.isSome ∧ tileAxis.End.isNone)
            ∨ 0 < tileAxis.InValues.length ∨ 0 < tileAxis.IdxSelectors.length)
        then { axis0 with Grid := "enum", Params := axis0.Params ++ timeStamps }
        else axis0
      let axis2 := { axis1 with Order := tileAxis.Order, Aggregate := tileAxis.Aggregate }
      if 0 < tileAxis.IdxSelectors.length then
        match List.lookup axis2.Name lookupState with
        | none =>
          match doSelectionByIndices axis2 tileAxis with
          | .error e => Except.error (.soft e)
          | .ok r => pure (r.1, r.2, (axis2.Name, axis2.Params) :: lookupState)
        | some vals =>
          if axis2.Params.all (fun v => v ∈ vals) then
            match doSelectionByIndices axis2 tileAxis with
            | .error e => Except.error (.soft e)
            | .ok r => pure (r.1, r.2, lookupState)
          else
            Except.error (.soft "index-based selection only supports homogeneous axis across files")
      else
        match doSelectionByRange axis2 tileAxis startTime endTime timeStamps with
        | .error e =>
          if e = "panic: nil StartTime dereference" then Except.error (.panic e)
          else Except.error (.soft e)
        | .ok r => pure (r.1, r.2, lookupState)
    | none =>
      if axisMapping = 0 then
        if axis0.Grid = "enum" then
          if axis0.Params.length = 0 then
            Except.error (.soft ("Indexer error: empty params for 'enum' grid: " ++ axis0.Name))
          else
            pure (false, { axis0 with
              IntersectionIdx := axis0.IntersectionIdx ++ [0],
              IntersectionValues := axis0.IntersectionValues ++ [axis0.Params.headD 0],
              Order := 1, Aggregate := 1 }, lookupState)
        else if axis0.Grid = "default" then
          match timeStamps with
          | [] => Except.error (.panic "panic: index out of range (empty timestamps)")
          | t :: _ =>
            pure (false, { axis0 with
              IntersectionIdx := axis0.IntersectionIdx ++ [0],
              IntersectionValues := axis0.IntersectionValues ++ [t],
              Order := 1, Aggregate := 1 }, lookupState)
        else
          Except.error (.soft ("Indexer error: unknown axis grid type: " ++ axis0.Grid))
      else
        if axis0.Grid = "enum" then
          if axis0.Params.length = 0 then
            Except.error (.soft ("Indexer error: empty params for 'enum' grid: " ++ axis0.Name))
          else
            pure (false, { axis0 with
              IntersectionIdx := axis0.IntersectionIdx
                ++ (List.range axis0.Params.length).map (fun i => (i : ℤ)),
              IntersectionValues := axis0.IntersectionValues ++ axis0.Params }, lookupState)
        else if axis0.Grid = "default" then
          pure (false, { axis0 with
            IntersectionIdx := axis0.IntersectionIdx
              ++ (List.range timeStamps.length).map (fun i => (i : ℤ)),
            IntersectionValues := axis0.IntersectionValues ++ timeStamps }, lookupState)
        else
          Except.error (.soft ("Indexer error: unknown axis grid type: " ++ axis0.Grid))

/-- Per-axis selection followed by the stride multiplication of lines
448..450 (indexing `Strides[0]` on an empty `Strides` is a panic). -/
def processAxis (reqAxes : List (String × GeoTileAxis)) (axisMapping : ℤ)
    (startTime endTime : Option ℚ) (timeStamps : List ℚ)
    (lookupState : List (String × List ℚ)) (axis0 : DatasetAxis) :
    Except IndexerAbort (Bool × DatasetAxis × List (String × List ℚ)) :=
  match processAxisSelect reqAxes axisMapping startTime endTime timeStamps lookupState axis0 with
  | .error e => .error e
  | .ok (outRange, axis3, lookup1) =>
    match axis3.Strides with
    | [] => Except.error (.panic "panic: index out of range (empty strides)")
    | s0 :: _ =>
      Except.ok (outRange, { axis3 with IntersectionIdx := axis3.IntersectionIdx.map (· * s0) }, lookup1)

/-- The per-dataset part of the selection phase (lines 359..457): inject
the default `time` axis when `Axes` is empty, run `processAxis` over every
axis.  As in the Go code, `isOutRange` is *overwritten* by each
request-matched axis (`isOutRange = outRange`), so only the last matched
axis decides whether the dataset is dropped. -/
def processDataset (reqAxes : List (String × GeoTileAxis)) (axisMapping : ℤ)
    (startTime endTime : Option ℚ)
    (lookupState : List (String × List ℚ)) (ds : GDALDatasetM) :
    Except IndexerAbort (GDALDatasetM × List (String × List ℚ)) := do
  let axes0 :=
    if ds.Axes.length = 0 then
      [{ Name := "time", Params := [], Strides := [1], Grid := "default",
         IntersectionIdx := [], IntersectionValues := [], Order := 0,
         Aggregate := 0 : DatasetAxis }]
    else ds.Axes
  let step ← axes0.foldlM
    (fun (st : Bool × List DatasetAxis × List (String × List ℚ)) axis => do
      let (outRange, axis', lookup') ←
        processAxis reqAxes axisMapping startTime endTime ds.TimeStamps st.2.2 axis
      let isOutRange := if (List.lookup axis.Name reqAxes).isSome then outRange else st.1
      pure (isOutRange, st.2.1 ++ [axis'], lookup'))
    (false, [], lookupState)
  pure ({ ds with Axes := step.2.1, IsOutRange := step.1 }, step.2.2)

/-- Selection phase over every dataset of the response (lines 358..458),
threading the `axisParamsLookup` homogeneity state. -/
def processDatasetsSelection (reqAxes : List (String × GeoTileAxis))
    (axisMapping : ℤ) (startTime endTime : Option ℚ)
    (dss : List GDALDatasetM) : Except IndexerAbort (List GDALDatasetM) := do
  let out ← dss.foldlM
    (fun (st : List GDALDatasetM × List (String × List ℚ)) ds => do
      let (ds', lookup') ←
        processDataset reqAxes axisMapping startTime endTime st.2 ds
      pure (st.1 ++ [ds'], lookup'))
    ([], [])
  pure out.1

/-- Modelled from the spec: Go `fmt.Sprintf("%v", x)` on a float64 axis
value (line 506).  It is exact for integral values — the only values the
theorems below evaluate; non-integral values are rendered as
`num/den`. -/
def showRatGo (q : ℚ) : String :=
  if q.den = 1 then toString q.num else toString q.num ++ "/" ++ toString q.den

/-- Zero-pad a number below 100 to two digits. -/
def pad2 (n : ℕ) : String := if n < 10 then "0" ++ toString n else toString n

/-- Civil date from days since the Unix epoch (proleptic Gregorian). -/
def civilFromDays (z0 : ℤ) : ℤ × ℕ × ℕ :=
  let z := z0 + 719468
  let era := z.fdiv 146097
  let doe := (z - era * 146097).toNat
  let yoe := (doe - doe / 1460 + doe / 36524 - doe / 146096) / 365
  let doy := doe - (365 * yoe + yoe / 4 - yoe / 100)
  let mp := (5 * doy + 2) / 153
  let d := doy - (153 * mp + 2) / 5 + 1
  let m := if mp < 10 then mp + 3 else mp - 9
  ((yoe : ℤ) + era * 400 + (if m ≤ 2 then 1 else 0), m, d)

/-- Modelled from the spec: `time.Unix(epoch, 0).UTC().Format(ISOFormat)`
(line 503..504; the `ISOFormat` constant lives outside the provided
sources and renders as `2006-01-02T15:04:05.000Z`). -/
def goISOFormat (epoch : ℤ) : String :=
  let days := epoch.fdiv 86400
  let secs := (epoch.emod 86400).toNat
  let ymd := civilFromDays days
  toString ymd.1 ++ "-" ++ pad2 ymd.2.1 ++ "-" ++ pad2 ymd.2.2 ++ "T"
    ++ pad2 (secs / 3600) ++ ":" ++ pad2 (secs % 3600 / 60) ++ ":"
    ++ pad2 (secs % 60) ++ ".000Z"

/-- Human-readable axis value for disaggregated namespaces (lines
501..507): ISO timestamp for the `time` axis, `%v` rendering otherwise.
`int64(value)` truncates toward zero. -/
def readableNs (axisName : String) (value : ℚ) : String :=
  if axisName = "time" then goISOFormat (goTrunc value) else showRatGo value

/-- One granule record produced by the Cartesian expansion, as far as the
claims observe it.  `Gran*` fields mirror the emitted `GeoTileGranule`
(request-copied fields such as `BBox`/`CRS`/geo-transform are omitted);
`DsNameSpace`, `BandTimeStamp` and `HasNonAgg` feed the `bandNameSpaces`
collection. -/
structure ExpGran where
  Path : String
  NameSpace : String
  VarNameSpace : String
  RasterType : String
  TimeStamp : ℚ
  BandIdx : ℤ
  Height : ℤ
  Width : ℤ
  DsNameSpace : String
  BandTimeStamp : ℚ
  HasNonAgg : Bool
deriving DecidableEq

/-- The per-combination body of the expansion loop (lines 475..536):
`bandIdx` accumulates `1 + Σ IntersectionIdx[pos_i]` (the indices are
already stride-multiplied), `bandTimeStamp` sums forward values,
`aggTimeStamp` sums values reversed within each `Order ≠ 0` axis, and the
namespace suffix lists every `Aggregate = 0` axis ("#" before the first,
"," before the rest).  `combo` is one position vector of the odometer. -/
def granuleOfCombo (dsNameSpace : String) (axes : List DatasetAxis)
    (combo : List ℕ) (ds : GDALDatasetM) (reqHeight reqWidth : ℤ) : ExpGran :=
  let zipped := axes.zip combo
  let bandIdx := zipped.foldl (fun acc p => acc + p.1.IntersectionIdx.getD p.2 0) 1
  let bandTS := zipped.foldl (fun acc p => qadd acc (p.1.IntersectionValues.getD p.2 0)) 0
  let aggTS := zipped.foldl
    (fun acc p =>
      let iT := if p.1.Order ≠ 0 then p.1.IntersectionIdx.length - p.2 - 1 else p.2
      qadd acc (p.1.IntersectionValues.getD iT 0))
    0
  let nsParts := (zipped.filter (fun p => p.1.Aggregate = 0)).map
    (fun p => p.1.Name ++ "=" ++ readableNs p.1.Name (p.1.IntersectionValues.getD p.2 0))
  let ns :=
    if nsParts.isEmpty then dsNameSpace
    else dsNameSpace ++ "#" ++ String.intercalate "," nsParts
  { Path := ds.DSName, NameSpace := ns, VarNameSpace := ds.NameSpace,
    RasterType := ds.ArrayType, TimeStamp := aggTS, BandIdx := bandIdx,
    Height := reqHeight, Width := reqWidth, DsNameSpace := dsNameSpace,
    BandTimeStamp := bandTS, HasNonAgg := ¬nsParts.isEmpty }

/-- Cartesian expansion of one dataset (the `axisIdxCnt` odometer loop,
lines 467..546): the combinations enumerate positions into each axis's
`IntersectionIdx`, rightmost axis varying fastest.  A dataset with no axes
would index `ds.Axes[0]`, and a dataset whose first axis has selections
while a later axis has none would index an empty slice — both Go runtime
panics, modelled as errors. -/
def expandDataset (isEmptyTile : Bool) (reqHeight reqWidth : ℤ)
    (ds : GDALDatasetM) : Except IndexerAbort (List ExpGran) :=
  let dsNameSpace := if isEmptyTile then EmptyTileNS else ds.NameSpace
  match ds.Axes with
  | [] => .error (.panic "panic: index out of range (no axes)")
  | a0 :: rest =>
    if a0.IntersectionIdx.length = 0 then .ok []
    else if (a0 :: rest).any (fun ax => ax.IntersectionIdx.isEmpty) then
      .error (.panic "panic: index out of range (empty axis intersection)")
    else
      .ok ((cartProd ((a0 :: rest).map (fun ax => List.range ax.IntersectionIdx.length))).map
        (fun combo => granuleOfCombo dsNameSpace (a0 :: rest) combo ds reqHeight reqWidth))

/-- Expansion over every dataset that survived selection (datasets flagged
`IsOutRange` are skipped, lines 462..465). -/
def expandAll (isEmptyTile : Bool) (reqHeight reqWidth : ℤ)
    (dss : List GDALDatasetM) : Except IndexerAbort (List ExpGran) :=
  dss.foldlM
    (fun acc ds => do
      if ds.IsOutRange then pure acc
      else
        let gl ← expandDataset isEmptyTile reqHeight reqWidth ds
        pure (acc ++ gl))
    []

/-- Insertion into the two-level `bandNameSpaces` map (lines 514..524):
keyed first by dataset namespace then by output namespace, recording the
first-seen `bandTimeStamp`; returns whether the namespace was already
present (`bFound`).  Insertion order is preserved — it is the source of
truth against which map-iteration reorderings are compared. -/
def bandNsInsert (bns : List (String × List (String × ℚ))) (dsNs ns : String)
    (v : ℚ) : List (String × List (String × ℚ)) × Bool :=
  match bns with
  | [] => ([(dsNs, [(ns, v)])], false)
  | (k, grp) :: rest =>
    if k = dsNs then
      match List.lookup ns grp with
      | some _ => ((k, grp) :: rest, true)
      | none => ((k, grp ++ [(ns, v)]) :: rest, false)
    else
      let step := bandNsInsert rest dsNs ns v
      ((k, grp) :: step.1, step.2)

/-- The granule-collection pass (lines 513..536): build `bandNameSpaces`
and the granule list in one sweep; under `isEmptyTile` duplicate
namespaces are dropped and the granule is rewritten to the NULL 1×1 Byte
placeholder. -/
def collectAndFilter (isEmptyTile : Bool) :
    List ExpGran → List (String × List (String × ℚ)) →
    List (String × List (String × ℚ)) × List ExpGran
  | [], bns => (bns, [])
  | g :: rest, bns =>
    let ins :=
      if g.HasNonAgg then bandNsInsert bns g.DsNameSpace g.NameSpace g.BandTimeStamp
      else (bns, false)
    let g' :=
      if isEmptyTile then
        { g with Path := "NULL", RasterType := "Byte", Height := 1, Width := 1 }
      else g
    let step := collectAndFilter isEmptyTile rest ins.1
    (step.1, if ¬isEmptyTile ∨ ¬ins.2 then g' :: step.2 else step.2)

/-- The `sort.Slice` over one namespace group (line 567), comparator
`Val <= Val`. -/
def sortBandNsGroup (l : List (String × ℚ)) : List (String × ℚ) :=
  goSortBy (fun a b => decide (a.2 ≤ b.2)) l

/-- The NameSpaces re-ordering (lines 555..577).  `mapEnum` stands for the
Go map iteration that materialises each group into `bandNsList` (lines
560..565): Go randomises map iteration order, so `mapEnum` is an
adversarial permutation of the insertion-ordered group.  Returns the new
list plus `hasNewNs`. -/
def sortedNameSpacesOf (mapEnum : List (String × ℚ) → List (String × ℚ))
    (reqNameSpaces : List String)
    (bandNs : List (String × List (String × ℚ))) : List String × Bool :=
  reqNameSpaces.foldl
    (fun acc ns =>
      match List.lookup ns bandNs with
      | some bands => (acc.1 ++ (sortBandNsGroup (mapEnum bands)).map (·.1), true)
      | none => (acc.1 ++ [ns], acc.2))
    ([], false)

/-- `processor.Mask`, restricted to the fields `Run` reads. -/
structure MaskM where
  DataSource : String
  ID : String
deriving DecidableEq

/-- `processor.GeoTileRequest` restricted to the fields read by `Run` and
`URLIndexGet` (times as epoch seconds). -/
structure GeoTileRequestM where
  Collection : String
  CRS : String
  BBox : List ℚ
  Height : ℤ
  Width : ℤ
  OffX : ℤ
  OffY : ℤ
  StartTime : Option ℚ
  EndTime : Option ℚ
  Axes : List (String × GeoTileAxis)
  NameSpaces : List String
  Mask : Option MaskM
  AxisMapping : ℤ
  QueryLimit : ℤ
  IndexTileXSize : ℚ
  IndexTileYSize : ℚ
  SpatialExtent : List ℚ
  IndexResLimit : ℚ
  MasQueryHint : String
deriving DecidableEq

/-- The fields of the emitted `GeoTileGranule` observed by the claims. -/
structure GeoTileGranuleM where
  Path : String
  NameSpace : String
  RasterType : String
  TimeStamp : ℚ
  BandIdx : ℤ
  Height : ℤ
  Width : ℤ
  OffX : ℤ
  OffY : ℤ
  CRS : String
  BBox : List ℚ
deriving DecidableEq

/-- The empty-tile sentinel granule literal emitted at tile_indexer.go
lines 110, 215, 322, 333, 340 and 356: path NULL, empty-tile namespace,
Byte raster type, zero timestamp, the request's bbox/size/offset/CRS. -/
def emptyTileGranule (req : GeoTileRequestM) : GeoTileGranuleM :=
  { Path := "NULL", NameSpace := EmptyTileNS, RasterType := "Byte",
    TimeStamp := 0, BandIdx := 0, Height := req.Height, Width := req.Width,
    OffX := req.OffX, OffY := req.OffY, CRS := req.CRS, BBox := req.BBox }

/-- Projection of an expansion granule onto the emitted granule record
(line 528: `TimeStamp: float64(aggTimeStamp)`, `BBox`, `CRS` and offsets
copied from the request). -/
def toGranule (req : GeoTileRequestM) (g : ExpGran) : GeoTileGranuleM :=
  { Path := g.Path, NameSpace := g.NameSpace, RasterType := g.RasterType,
    TimeStamp := g.TimeStamp, BandIdx := g.BandIdx, Height := g.Height,
    Width := g.Width, OffX := req.OffX, OffY := req.OffY, CRS := req.CRS,
    BBox := req.BBox }

/-- `TileIndexer.sendError` (lines 830..835): non-blocking send on the
capacity-1 buffered error channel — if the channel already holds an error
the new one is discarded. -/
def sendError (errCh : Option String) (e : String) : Option String :=
  match errCh with
  | none => some e
  | some e0 => some e0

/-- Outcome of the HTTP GET / body read / JSON unmarshal sequence of
`URLIndexGet` (lines 319..342). -/
inductive FetchOutcome : Type
  | httpErr (e : String)
  | readErr (e : String)
  | jsonErr (e : String)
  | ok (md : MetadataResponse)
deriving DecidableEq

/-- `TileIndexer.URLIndexGet` (lines 313..603) as a function of the fetch
outcome.  Returns `(emitted granules, resulting NameSpaces payload, error
channel state)`; a `.error` result models a Go runtime panic.  `mapEnum`
is the randomized Go map iteration applied to each namespace group (see
`sortedNameSpacesOf`); context cancellation is not modelled. -/
def URLIndexGet (url : String) (req : GeoTileRequestM) (isEmptyTile : Bool)
    (fetch : FetchOutcome) (errCh : Option String)
    (mapEnum : List (String × ℚ) → List (String × ℚ)) :
    Except String (List GeoTileGranuleM × List String × Option String) :=
  match fetch with
  | .httpErr e =>
    .ok ([emptyTileGranule req], req.NameSpaces,
      sendError errCh ("GET request to " ++ url ++ " failed. Error: " ++ e))
  | .readErr e =>
    .ok ([emptyTileGranule req], req.NameSpaces,
      sendError errCh ("Error parsing response body from " ++ url ++ ". Error: " ++ e))
  | .jsonErr e =>
    .ok ([emptyTileGranule req], req.NameSpaces,
      sendError errCh ("Problem parsing JSON response from " ++ url ++ ". Error: " ++ e))
  | .ok md =>
    if md.GDALDatasets.length = 0 then
      .ok ([emptyTileGranule req], req.NameSpaces, errCh)
    else
      match processDatasetsSelection req.Axes req.AxisMapping req.StartTime
          req.EndTime md.GDALDatasets with
      | .error (.soft e) => .ok ([], req.NameSpaces, sendError errCh e)
      | .error (.panic e) => .error e
      | .ok dss =>
        match expandAll isEmptyTile req.Height req.Width dss with
        | .error (.soft e) => .ok ([], req.NameSpaces, sendError errCh e)
        | .error (.panic e) => .error e
        | .ok granAll =>
          let collected := collectAndFilter isEmptyTile granAll []
          let sorted := sortedNameSpacesOf mapEnum req.NameSpaces collected.1
          let nsOut := if sorted.2 then sorted.1 else req.NameSpaces
          .ok (collected.2.map (toGranule req), nsOut, errCh)

/-- A metadata query issued by `Run` through `URLIndexGet`, abstracted to
the parameters of `getIndexerURL` (lines 302..311): the WKT bbox (`[]`
when the bbox string is empty, e.g. under the `non_spatial` hint), the
SRS, the namespace list and the collection. -/
structure IndexQuery where
  BBox : List ℚ
  CRS : String
  NameSpaces : String
  Collection : String
deriving DecidableEq

/-- Time-axis resolution at the head of `Run`'s per-request body (lines
117..154): enumerated time values become the `[min, max]` window (`max`
only when strictly greater, `time.Unix(int64(v), 0)` truncating); a bare
range copies start/end. -/
def timeAxisStep (req0 : GeoTileRequestM) : GeoTileRequestM :=
  match List.lookup "time" req0.Axes with
  | none => req0
  | some axis =>
    if 0 < axis.InValues.length then
      let mm := axis.InValues.enum.foldl
        (fun (mm : ℚ × ℚ) (iv : ℕ × ℚ) =>
          if iv.1 = 0 then (iv.2, iv.2)
          else if iv.2 < mm.1 then (iv.2, mm.2)
          else if mm.2 < iv.2 then (mm.1, iv.2)
          else mm)
        (0, 0)
      { req0 with
        StartTime := some (goTrunc mm.1 : ℚ),
        EndTime := if mm.1 < mm.2 then some (goTrunc mm.2 : ℚ) else req0.EndTime }
    else
      { req0 with
        StartTime := (match axis.Start with
          | some s => some (goTrunc s : ℚ)
          | none => req0.StartTime),
        EndTime := (match axis.End with
          | some e => some (goTrunc e : ℚ)
          | none => req0.EndTime) }

/-- The empty-`NameSpaces` fix-up of `Run` (lines 156..158). -/
def nsFixup (req1 : GeoTileRequestM) : GeoTileRequestM :=
  { req1 with NameSpaces := if req1.NameSpaces.length = 0 then [""] else req1.NameSpaces }

/-- The clipped bounding box of lines 208..212: elementwise intersection
of the canonical request bbox with the configured spatial extent. -/
def clipBBox (cb ext : List ℚ) : List ℚ :=
  [qmax (cb.getD 0 0) (ext.getD 0 0),
   qmax (cb.getD 1 0) (ext.getD 1 0),
   qmin (cb.getD 2 0) (ext.getD 2 0),
   qmin (cb.getD 3 0) (ext.getD 3 0)]

/-- The optional mask-layer query (lines 276..295); it reuses the current
value of the mutable `bboxWkt`, which after a sub-division loop is the
last sub-tile's bbox. -/
def maskQueries (req : GeoTileRequestM) (nameSpaces : String) (wkt : List ℚ) :
    List IndexQuery :=
  match req.Mask with
  | none => []
  | some mask =>
    let maskCollection :=
      if mask.DataSource.length = 0 then req.Collection else mask.DataSource
    if maskCollection ≠ req.Collection ∨ mask.ID ≠ nameSpaces then
      [{ BBox := wkt, CRS := req.CRS, NameSpaces := mask.ID, Collection := maskCollection }]
    else []

/-- The part of `Run`'s per-request body following the empty-collection
check and the time/namespace fix-ups (lines 160..298). -/
def runStepBody (req : GeoTileRequestM) (canon : Except Unit (List ℚ)) :
    List GeoTileGranuleM × List IndexQuery :=
    let nameSpaces0 := String.intercalate "," req.NameSpaces
    let isEmptyTile := 0 < req.NameSpaces.length ∧ req.NameSpaces.headD "" = EmptyTileNS
    let nameSpaces := if isEmptyTile then "" else nameSpaces0
    let bboxWkt : List ℚ := if req.MasQueryHint ≠ "non_spatial" then req.BBox else []
    let mainQuery : IndexQuery :=
      { BBox := bboxWkt, CRS := req.CRS, NameSpaces := nameSpaces, Collection := req.Collection }
    -- spatial-extent intersection, lines 201..225
    let clipped : Option (List ℚ) :=
      if 4 ≤ req.SpatialExtent.length then
        match canon with
        | .ok cb => some (clipBBox cb req.SpatialExtent)
        | .error _ => none
      else none
    match clipped with
    | some cb =>
      if cb.getD 2 0 < cb.getD 0 0 ∨ cb.getD 3 0 < cb.getD 1 0 then
        ([emptyTileGranule req], [])
      else
        -- sub-division, lines 227..269
        let maxXTileSize0 := goTrunc (qmul 256 req.IndexTileXSize)
        let maxXTileSize := if maxXTileSize0 ≤ 0 then 256 else maxXTileSize0
        let maxYTileSize0 := goTrunc (qmul 256 req.IndexTileYSize)
        let maxYTileSize := if maxYTileSize0 ≤ 0 then 256 else maxYTileSize0
        let xRes := qdiv (qsub (cb.getD 2 0) (cb.getD 0 0)) 256
        let yRes := qdiv (qsub (cb.getD 3 0) (cb.getD 1 0)) 256
        let reqRes := qmax xRes yRes
        let subQueries :=
          if req.QueryLimit ≤ 0 ∧ req.IndexResLimit < reqRes then
            ((List.range 256).filter (fun (y : ℕ) => (y : ℤ) % maxYTileSize = 0)).flatMap
              (fun (y : ℕ) => ((List.range 256).filter (fun (x : ℕ) => (x : ℤ) % maxXTileSize = 0)).map
                (fun (x : ℕ) =>
                  let yMin := qadd (cb.getD 1 0) (qmul (y : ℚ) yRes)
                  let yMax := qmin (qadd (cb.getD 1 0) (qmul (((y : ℤ) + maxYTileSize : ℤ) : ℚ) yRes)) (cb.getD 3 0)
                  let xMin := qadd (cb.getD 0 0) (qmul (x : ℚ) xRes)
                  let xMax := qmin (qadd (cb.getD 0 0) (qmul (((x : ℤ) + maxXTileSize : ℤ) : ℚ) xRes)) (cb.getD 2 0)
                  ({ BBox := [xMin, yMin, xMax, yMax], CRS := "EPSG:3857",
                     NameSpaces := nameSpaces, Collection := req.Collection } : IndexQuery)))
          else []
        let queries := if subQueries.isEmpty then [mainQuery] else subQueries
        let lastWkt := ((queries.getLast?).map (·.BBox)).getD bboxWkt
        ([], queries ++ maskQueries req nameSpaces lastWkt)
    | none =>
      ([], [mainQuery] ++ maskQueries req nameSpaces bboxWkt)

/-- The per-request body of `TileIndexer.Run` (lines 100..298), as the
pair (granules emitted directly by `Run`, metadata queries handed to
`URLIndexGet` goroutines): the empty-collection check, then the time-axis
and namespace fix-ups, then `runStepBody`.  `canon` is the result of the
cgo-backed `utils.GetCanonicalBbox` (for `EPSG:3857` the identity on the
request bbox).  The `rand.Shuffle` of the sub-division URLs is omitted:
the query list is modelled in loop order (a permutation of the shuffled
one).  Metrics, logging and cancellation are not modelled. -/
def runStep (req0 : GeoTileRequestM) (canon : Except Unit (List ℚ)) :
    List GeoTileGranuleM × List IndexQuery :=
  if (goTrimSpace req0.Collection).length = 0 then
    ([emptyTileGranule req0], [])
  else
    runStepBody (nsFixup (timeAxisStep req0)) canon

/-! ## Band-math complexity enforcement (utils/config.go, lines 1400..1485) -/

/-- A `goeval` token as observed by `CheckBandExpressionsComplexity`: the
token kind's string name and the token value (`none` models a value of the
Go `interface{}` that is not a string). -/
structure ExprToken where
  Kind : String
  Value : Option String
deriving DecidableEq

/-- A `TokenACL` entry value (an `interface{}` in Go): JSON `null` forbids
the whole token kind; a list is a deny-list of values (non-string members
degrade to the zero string, as in the Go type switch); any other value is
logged and leaves the token allowed. -/
inductive ACLVal : Type
  | anil
  | alist (vs : List (Option String))
  | aother
deriving DecidableEq

/-- `utils.BandExpressions` restricted to the fields the check reads:
the token list of each parsed expression, and the deduplicated variable
list across all expressions. -/
structure BandExpressions where
  Expressions : List (List ExprToken)
  VarList : List String
deriving DecidableEq

/-- `utils.BandExpressionComplexityCriteria`. -/
structure BandExpressionComplexityCriteria where
  MaxVariables : ℤ
  MaxTokens : ℤ
  MaxExpressions : ℤ
  VariableLookup : List String
  TokenACL : List (String × ACLVal)
deriving DecidableEq

/-- The per-token variable check (lines 1422..1438).  The Go error text
for an unknown variable enumerates `VariableLookup` in randomized map
order; the model joins it in list order (the claims never reach that
message). -/
def varTokErr (lookup : List String) (token : ExprToken) : Option String :=
  if token.Kind = "VARIABLE" then
    match token.Value with
    | none => some "band math error: variable token failed to cast string"
    | some varName =>
      if varName ∈ lookup then none
      else some ("band math error: variable not supported: " ++ varName
        ++ ", supported variables are: " ++ String.intercalate ", " lookup)
  else none

/-- The per-token ACL check (lines 1443..1481). -/
def aclTokErr (acl : List (String × ACLVal)) (token : ExprToken) : Option String :=
  match List.lookup token.Kind acl with
  | none => none
  | some .anil =>
    some ("band math error: Operation not supported: " ++ token.Value.getD "")
  | some (.alist vs) =>
    match token.Value with
    | none => none
    | some val =>
      if val ∈ vs.map (fun v => v.getD "") then
        some ("band math error: Operation not supported: " ++ val)
      else none
  | some .aother => none

/-- `utils.CheckBandExpressionsComplexity` (lines 1400..1485): reject when
the layer exposes no variables, enforce the three numeric ceilings, check
every variable token against `VariableLookup`, then apply the per-kind
token ACL. -/
def CheckBandExpressionsComplexity (bandExpr : BandExpressions)
    (criteria : BandExpressionComplexityCriteria) : Except String Unit :=
  if criteria.VariableLookup.length = 0 then
    .error "band math error: user-defined band math is not enabled for this layer"
  else if criteria.MaxExpressions < (bandExpr.Expressions.length : ℤ) then
    .error ("band math error: Too many expressions: " ++ toString bandExpr.Expressions.length)
  else if criteria.MaxVariables < (bandExpr.VarList.length : ℤ) then
    .error ("band math error: Too many variables: " ++ toString bandExpr.VarList.length)
  else
    let tokenCount := (bandExpr.Expressions.map List.length).sum
    if criteria.MaxTokens < (tokenCount : ℤ) then
      .error ("band math error: Too many tokens: " ++ toString tokenCount)
    else
      match bandExpr.Expressions.findSome?
          (fun ts => ts.findSome? (varTokErr criteria.VariableLookup)) with
      | some e => .error e
      | none =>
        if 0 < criteria.TokenACL.length then
          match bandExpr.Expressions.findSome?
              (fun ts => ts.findSome? (aclTokErr criteria.TokenACL)) with
          | some e => .error e
          | none => .ok ()
        else .ok ()

/-! ## Concrete sample inputs used by the witness instantiations -/

/-- A request axis selecting everything on an axis (one `IsAll` index
selector), disaggregated (`Aggregate = 0`). -/
def taAllDisagg : GeoTileAxis := ⟨none, none, [], 0, 0, [⟨none, none, none, false, true⟩]⟩

/-- A plain sample request over collection `c`. -/
def sampleReq : GeoTileRequestM :=
  { Collection := "c", CRS := "EPSG:3857", BBox := [0, 0, 2, 2], Height := 256,
    Width := 256, OffX := 0, OffY := 0, StartTime := some 0, EndTime := none,
    Axes := [], NameSpaces := ["ns"], Mask := none, AxisMapping := 0,
    QueryLimit := 1, IndexTileXSize := 1, IndexTileYSize := 1,
    SpatialExtent := [2, 0, 4, 2], IndexResLimit := 0, MasQueryHint := "" }

/-- The same request with a whitespace-only collection identifier. -/
def sampleReqEmptyCol : GeoTileRequestM := { sampleReq with Collection := "   " }

/-- The sample request with a spatial extent strictly to the right of the
request bbox, so the clipped box is strictly inverted. -/
def sampleReqC10Inv : GeoTileRequestM := { sampleReq with SpatialExtent := [3, 0, 4, 2] }

/-- The request used by the nondeterminism counterexample: namespaces
`["ns"]`, two disaggregated axes `lev1`/`lev2` selected whole. -/
def sampleReqC3 : GeoTileRequestM :=
  { sampleReq with Axes := [("lev1", taAllDisagg), ("lev2", taAllDisagg)], SpatialExtent := [] }

/-- Metadata response with one dataset whose two enum axes produce two
distinct disaggregated namespaces with the *same* band timestamp
(`3 + 4 = 4 + 3`). -/
def sampleMdC3 : MetadataResponse :=
  ⟨"", [⟨"p", "d", "ns", "Float32", [],
    [⟨"lev1", [3, 4], [1], "enum", [], [], 0, 0⟩,
     ⟨"lev2", [4, 3], [1], "enum", [], [], 0, 0⟩], false⟩]⟩

/-- A fresh two-parameter enum axis. -/
def sampleAxisC5 : DatasetAxis := ⟨"x", [10, 20], [1], "enum", [], [], 0, 0⟩

/-- Two identical overlapping range selectors `{start=0, end=1, step=1}`. -/
def sampleTaC5 : GeoTileAxis :=
  ⟨none, none, [], 0, 0,
   [⟨some 0, some 1, some 1, true, false⟩, ⟨some 0, some 1, some 1, true, false⟩]⟩

/-- An eight-parameter enum axis (spec boundary scenario 4). -/
def sampleAxis8 : DatasetAxis :=
  ⟨"x", [10, 20, 30, 40, 50, 60, 70, 80], [1], "enum", [], [], 0, 0⟩

/-- The index selector `{start=0, end=6, step=2}`. -/
def sampleTa8 : GeoTileAxis :=
  ⟨none, none, [], 0, 0, [⟨some 0, some 6, some 2, true, false⟩]⟩

/-- The pre-selection `lev1` axis of the C4 sample dataset. -/
def sampleAxPre1 : DatasetAxis := ⟨"lev1", [3, 4], [1], "enum", [], [], 0, 0⟩

/-- The pre-selection `lev2` axis of the C4 sample dataset. -/
def sampleAxPre2 : DatasetAxis := ⟨"lev2", [4, 3], [1], "enum", [], [], 0, 0⟩

/-- `lev1` after `IsAll` selection and stride multiplication. -/
def sampleAxSel1 : DatasetAxis := ⟨"lev1", [3, 4], [1], "enum", [0, 1], [3, 4], 0, 0⟩

/-- `lev2` after `IsAll` selection and stride multiplication. -/
def sampleAxSel2 : DatasetAxis := ⟨"lev2", [4, 3], [1], "enum", [0, 1], [4, 3], 0, 0⟩

/-- A post-selection dataset with the two sample axes. -/
def sampleDsC4 : GDALDatasetM :=
  ⟨"p", "d", "ns", "Float32", [], [sampleAxSel1, sampleAxSel2], false⟩

/-- The Cartesian expansion of `sampleDsC4` (rightmost axis fastest). -/
def sampleGlC4 : List ExpGran :=
  [⟨"d", "ns#lev1=3,lev2=4", "ns", "Float32", 7, 1, 256, 256, "ns", 7, true⟩,
   ⟨"d", "ns#lev1=3,lev2=3", "ns", "Float32", 6, 2, 256, 256, "ns", 6, true⟩,
   ⟨"d", "ns#lev1=4,lev2=4", "ns", "Float32", 8, 2, 256, 256, "ns", 8, true⟩,
   ⟨"d", "ns#lev1=4,lev2=3", "ns", "Float32", 7, 3, 256, 256, "ns", 7, true⟩]

/-- A band-math expression set with one variable-free expression
(`1 + 2`, three tokens). -/
def sampleBandExpr : BandExpressions :=
  ⟨[[⟨"NUMERIC", some "1"⟩, ⟨"OPERATOR", some "+"⟩, ⟨"NUMERIC", some "2"⟩]], []⟩

/-- Complexity criteria with generous ceilings but an empty
`VariableLookup`. -/
def sampleCriteriaNoVars : BandExpressionComplexityCriteria := ⟨10, 100, 10, [], []⟩

/-! ## General lemmas about the embedding combinators -/

theorem except_bind_ok {ε α β : Type} (x : Except ε α) (f : α → Except ε β)
    (c : β) : (x >>= f) = .ok c ↔ ∃ b, x = .ok b ∧ f b = .ok c := by
  cases x <;> simp [Bind.bind, Except.bind]

theorem mapMO_get? {α β : Type} (f : α → Option β) :
    ∀ (l : List α) (l' : List β), mapMO f l = some l' →
      l'.length = l.length ∧
      ∀ i a, l.get? i = some a → ∃ b, f a = some b ∧ l'.get? i = some b := by
  intro l
  induction l with
  | nil =>
    intro l' h
    simp only [mapMO, Option.some.injEq] at h
    subst h
    simp
  | cons a t ih =>
    intro l' h
    simp only [mapMO] at h
    cases hfa : f a with
    | none => rw [hfa] at h; exact absurd h (by cases mapMO f t <;> simp)
    | some b =>
      rw [hfa] at h
      cases hml : mapMO f t with
      | none => rw [hml] at h; exact absurd h (by simp)
      | some bl =>
        rw [hml] at h
        simp only [Option.some.injEq] at h
        subst h
        obtain ⟨hlen, hget⟩ := ih bl hml
        refine ⟨by simp [hlen], ?_⟩
        intro i x hx
        cases i with
        | zero =>
          simp only [List.get?_cons_zero, Option.some.injEq] at hx
          subst hx
          exact ⟨b, hfa, by simp⟩
        | succ n =>
          simp only [List.get?_cons_succ] at hx ⊢
          exact hget n x hx

theorem foldl_add_map_sum {α : Type} (f : α → ℤ) :
    ∀ (l : List α) (c : ℤ), l.foldl (fun acc p => acc + f p) c = c + (l.map f).sum := by
  intro l
  induction l with
  | nil => intro c; simp
  | cons a t ih => intro c; simp [ih]; ring

theorem getD_zero_nonneg (l : List ℤ) (h : ∀ i ∈ l, 0 ≤ i) (n : ℕ) :
    0 ≤ l.getD n 0 := by
  rw [List.getD_eq_getD_get?]
  cases hg : l.get? n with
  | none => simp
  | some a => simpa using h a (List.get?_mem hg)

theorem insertG_perm {α : Type} (le : α → α → Bool) (x : α) :
    ∀ l : List α, (insertG le x l).Perm (x :: l) := by
  intro l
  induction l with
  | nil => simp [insertG]
  | cons y ys ih =>
    simp only [insertG]
    split
    · exact List.Perm.refl _
    · exact ((ih.cons y).trans (List.Perm.swap x y ys))

theorem goSortBy_perm_aux {α : Type} (le : α → α → Bool) :
    ∀ (l acc : List α),
      (l.foldl (fun acc x => insertG le x acc) acc).Perm (acc ++ l) := by
  intro l
  induction l with
  | nil => intro acc; simp
  | cons x t ih =>
    intro acc
    simp only [List.foldl_cons]
    refine (ih (insertG le x acc)).trans ?_
    have h1 : (insertG le x acc ++ t).Perm ((x :: acc) ++ t) :=
      (insertG_perm le x acc).append_right t
    refine h1.trans ?_
    exact List.perm_middle.symm

theorem goSortBy_perm {α : Type} (le : α → α → Bool) (l : List α) :
    (goSortBy le l).Perm l := by
  simpa [goSortBy] using goSortBy_perm_aux le l []

theorem insertG_sorted {α : Type} (le : α → α → Bool)
    (htot : ∀ a b, le a b = false → le b a = true)
    (htrans : ∀ a b c, le a b = true → le b c = true → le a c = true)
    (x : α) :
    ∀ l : List α, l.Pairwise (fun a b => le a b = true) →
      (insertG le x l).Pairwise (fun a b => le a b = true) := by
  intro l
  induction l with
  | nil => intro _; simp [insertG]
  | cons y ys ih =>
    intro hp
    rcases List.pairwise_cons.mp hp with ⟨hy, hys⟩
    simp only [insertG]
    split
    · rename_i hxy
      refine List.pairwise_cons.mpr ⟨?_, hp⟩
      intro z hz
      rcases List.mem_cons.mp hz with rfl | hz'
      · exact hxy
      · exact htrans x y z hxy (hy z hz')
    · rename_i hxy
      refine List.pairwise_cons.mpr ⟨?_, ih hys⟩
      intro z hz
      have hz2 : z ∈ x :: ys := (insertG_perm le x ys).mem_iff.mp hz
      rcases List.mem_cons.mp hz2 with h | hz'
      · subst h
        exact htot z y (by simpa using hxy)
      · exact hy z hz'

theorem goSortBy_sorted {α : Type} (le : α → α → Bool)
    (htot : ∀ a b, le a b = false → le b a = true)
    (htrans : ∀ a b c, le a b = true → le b c = true → le a c = true)
    (l : List α) :
    (goSortBy le l).Pairwise (fun a b => le a b = true) := by
  suffices h : ∀ (l acc : List α), acc.Pairwise (fun a b => le a b = true) →
      (l.foldl (fun acc x => insertG le x acc) acc).Pairwise (fun a b => le a b = true) by
    exact h l [] (by simp)
  intro l
  induction l with
  | nil => intro acc hacc; simpa using hacc
  | cons x t ih =>
    intro acc hacc
    simp only [List.foldl_cons]
    exact ih (insertG le x acc) (insertG_sorted le htot htrans x acc hacc)

theorem insertG_of_all_false {α : Type} (le : α → α → Bool) (x : α) :
    ∀ l : List α, (∀ y ∈ l, le x y = false) → insertG le x l = l ++ [x] := by
  intro l
  induction l with
  | nil => intro _; simp [insertG]
  | cons y ys ih =>
    intro h
    simp only [insertG]
    rw [if_neg (by simp [h y (by simp)]), ih (fun z hz => h z (by simp [hz]))]
    simp

theorem goSortBy_of_pairwise {α : Type} (le : α → α → Bool) :
    ∀ (l acc : List α), l.Pairwise (fun a b => le b a = false) →
      (∀ x ∈ l, ∀ y ∈ acc, le x y = false) →
      l.foldl (fun acc x => insertG le x acc) acc = acc ++ l := by
  intro l
  induction l with
  | nil => intro acc _ _; simp
  | cons x t ih =>
    intro acc hp hcross
    rcases List.pairwise_cons.mp hp with ⟨hx, ht⟩
    simp only [List.foldl_cons]
    rw [insertG_of_all_false le x acc (hcross x (by simp))]
    rw [ih (acc ++ [x]) ht ?_]
    · simp
    · intro z hz y hy
      rcases List.mem_append.mp hy with hy' | hy'
      · exact hcross z (by simp [hz]) y hy'
      · rcases List.mem_singleton.mp hy' with rfl
        exact hx z hz

theorem goSortBy_id_of_pairwise {α : Type} (le : α → α → Bool) (l : List α)
    (hp : l.Pairwise (fun a b => le b a = false)) : goSortBy le l = l := by
  simpa [goSortBy] using goSortBy_of_pairwise le l [] hp (by simp)

theorem goForLoop_mem (st : ℤ) (hst : 1 ≤ st) :
    ∀ (f : ℕ) (s e i : ℤ), i ∈ goForLoop st s e f → s ≤ i ∧ i ≤ e := by
  intro f
  induction f with
  | zero => intro s e i h; simp [goForLoop] at h
  | succ n ih =>
    intro s e i h
    simp only [goForLoop] at h
    split at h
    · rcases List.mem_cons.mp h with rfl | h'
      · exact ⟨le_refl _, by assumption⟩
      · have := ih (s + st) e i h'
        exact ⟨by omega, this.2⟩
    · simp at h

theorem goForLoop_pairwise (st : ℤ) (hst : 1 ≤ st) :
    ∀ (f : ℕ) (s e : ℤ), (goForLoop st s e f).Pairwise (· < ·) := by
  intro f
  induction f with
  | zero => intro s e; simp [goForLoop]
  | succ n ih =>
    intro s e
    simp only [goForLoop]
    split
    · refine List.pairwise_cons.mpr ⟨?_, ih (s + st) e⟩
      intro i hi
      have := (goForLoop_mem st hst n (s + st) e i hi).1
      omega
    · simp

theorem rangeIdxSeq_mem (s e st i : ℤ) (hst : 1 ≤ st)
    (h : i ∈ rangeIdxSeq s e st) : s ≤ i ∧ i ≤ e :=
  goForLoop_mem st hst _ s e i h

theorem rangeIdxSeq_pairwise (s e st : ℤ) (hst : 1 ≤ st) :
    (rangeIdxSeq s e st).Pairwise (· < ·) :=
  goForLoop_pairwise st hst _ s e

theorem zip_self_map {α β : Type} (f : α → β) :
    ∀ l : List α, l.zip (l.map f) = l.map (fun x => (x, f x)) := by
  intro l
  induction l with
  | nil => rfl
  | cons a t ih => simp [ih]

theorem timeAxisStep_preserves (r : GeoTileRequestM) :
    (timeAxisStep r).Collection = r.Collection ∧
    (timeAxisStep r).BBox = r.BBox ∧
    (timeAxisStep r).Height = r.Height ∧
    (timeAxisStep r).Width = r.Width ∧
    (timeAxisStep r).OffX = r.OffX ∧
    (timeAxisStep r).OffY = r.OffY ∧
    (timeAxisStep r).CRS = r.CRS ∧
    (timeAxisStep r).SpatialExtent = r.SpatialExtent ∧
    (timeAxisStep r).NameSpaces = r.NameSpaces := by
  unfold timeAxisStep
  split
  · exact ⟨rfl, rfl, rfl, rfl, rfl, rfl, rfl, rfl, rfl⟩
  · split <;> exact ⟨rfl, rfl, rfl, rfl, rfl, rfl, rfl, rfl, rfl⟩

theorem nsFixup_preserves (r : GeoTileRequestM) :
    (nsFixup r).Collection = r.Collection ∧
    (nsFixup r).BBox = r.BBox ∧
    (nsFixup r).Height = r.Height ∧
    (nsFixup r).Width = r.Width ∧
    (nsFixup r).OffX = r.OffX ∧
    (nsFixup r).OffY = r.OffY ∧
    (nsFixup r).CRS = r.CRS ∧
    (nsFixup r).SpatialExtent = r.SpatialExtent :=
  ⟨rfl, rfl, rfl, rfl, rfl, rfl, rfl, rfl⟩

theorem emptyTileGranule_fixups (r : GeoTileRequestM) :
    emptyTileGranule (nsFixup (timeAxisStep r)) = emptyTileGranule r := by
  obtain ⟨h1, h2, h3, h4, h5, h6, h7, _, _⟩ := timeAxisStep_preserves r
  simp [emptyTileGranule, nsFixup, h1, h2, h3, h4, h5, h6, h7]

theorem queries_cons_nonempty {α : Type} (l : List α) (m : α) (mq : List α) :
    (if l.isEmpty then [m] else l) ++ mq ≠ [] := by
  cases l <;> simp

theorem runStepBody_spatial (req : GeoTileRequestM) (cb : List ℚ)
    (hse : 4 ≤ req.SpatialExtent.length) :
    (((clipBBox cb req.SpatialExtent).getD 2 0 < (clipBBox cb req.SpatialExtent).getD 0 0 ∨
      (clipBBox cb req.SpatialExtent).getD 3 0 < (clipBBox cb req.SpatialExtent).getD 1 0) →
        runStepBody req (.ok cb) = ([emptyTileGranule req], [])) ∧
    (¬((clipBBox cb req.SpatialExtent).getD 2 0 < (clipBBox cb req.SpatialExtent).getD 0 0 ∨
      (clipBBox cb req.SpatialExtent).getD 3 0 < (clipBBox cb req.SpatialExtent).getD 1 0) →
        (runStepBody req (.ok cb)).1 = [] ∧ (runStepBody req (.ok cb)).2 ≠ []) := by
  constructor
  · intro hinv
    rw [runStepBody]
    rw [if_pos hse]
    split
    next cb' hcb' =>
      cases hcb'
      rw [if_pos hinv]
    next hcb' => exact absurd hcb' (by simp)
  · intro hinv
    rw [runStepBody]
    rw [if_pos hse]
    split
    next cb' hcb' =>
      cases hcb'
      rw [if_neg hinv]
      exact ⟨rfl, queries_cons_nonempty _ _ _⟩
    next hcb' => exact absurd hcb' (by simp)

/-! ## Claim theorems -/

/-- C1.  The spec's corrected scaler mapping
`floor((v - offset) / (clip - offset) × 255)` disagrees with the source:
at the Float32 sample `v = 20` with `offset = 10`, `clip = 20` (not
no-data, no log scaling) the source computes
`uint8(floor((v - clip) / (clip - offset) × 255)) = 0`, while the
corrected mapping of the claim yields `255`.  The source numerator is
`v - clip`, so the code does not implement the claimed mapping. -/
theorem scaleNew_numerator_uses_clip_not_offset :
    scaleNew id (.float32 [20] (-999)) ⟨10, 20, 0⟩ =
      some ⟨[0], .float32 [20] (-999)⟩ ∧
    specScaledByte 10 20 20 = 255 ∧ (0 : ℤ) ≠ 255 := by
  refine ⟨by decide, ?_, by decide⟩
  norm_num [specScaledByte]

/-- C7.  The min/max widening of the scaler does not keep the divisor
non-zero for integer rasters: on the SignedByte plane `[5, 5]` (no-data
`-1`, offset = clip = 0) the derived min/max are `(5, 5)`, the widened max
`5.1` truncates back to the `int8` value `5`, so `trange = clip - offset
= 0` and the scaling loop performs an integer division by zero — a Go
runtime panic, modelled as `none`. -/
theorem scaleNew_signedByte_div_by_zero :
    deriveMinMax [5, 5] (-1) = (5, 5) ∧
    wrapI8 (goTrunc (qadd 5 (qdiv 1 10))) - wrapI8 (goTrunc (5 : ℚ)) = 0 ∧
    scaleNew id (.signedByte [5, 5] (-1)) ⟨0, 0, 0⟩ = none := by
  exact ⟨by decide, by decide, by decide⟩

/-- C9.  Whenever the criteria's `VariableLookup` is empty the band-math
complexity check rejects every expression set with the fixed error — the
check fires before any ceiling or token inspection, so even variable-free
expressions within all ceilings fail. -/
theorem checkBandExpressions_empty_lookup_rejects
    (bandExpr : BandExpressions) (criteria : BandExpressionComplexityCriteria)
    (h : criteria.VariableLookup = []) :
    CheckBandExpressionsComplexity bandExpr criteria =
      .error "band math error: user-defined band math is not enabled for this layer" := by
  simp [CheckBandExpressionsComplexity, h]

/-- C9 witness: a one-expression, variable-free set (`1 + 2`, 3 tokens)
within all ceilings is still rejected when `VariableLookup` is empty. -/
theorem checkBandExpressions_empty_lookup_rejects_witness :
    sampleCriteriaNoVars.VariableLookup = [] ∧
    sampleBandExpr.VarList = [] ∧
    CheckBandExpressionsComplexity sampleBandExpr sampleCriteriaNoVars =
      .error "band math error: user-defined band math is not enabled for this layer" :=
  ⟨by decide, by decide,
   checkBandExpressions_empty_lookup_rejects sampleBandExpr sampleCriteriaNoVars (by decide)⟩

/-- C6.  On each of the three fetch failures (HTTP transport, body read,
JSON parse) `URLIndexGet` emits exactly one empty-tile sentinel granule
and records the error through the non-blocking `sendError`; `sendError`
on an empty channel stores the error, and on an occupied channel discards
the new one (first error wins). -/
theorem urlIndexGet_failure_sentinel_first_error
    (url : String) (req : GeoTileRequestM) (isEmptyTile : Bool)
    (errCh : Option String)
    (mapEnum : List (String × ℚ) → List (String × ℚ)) (e m e0 : String) :
    URLIndexGet url req isEmptyTile (.httpErr e) errCh mapEnum =
      .ok ([emptyTileGranule req], req.NameSpaces,
        sendError errCh ("GET request to " ++ url ++ " failed. Error: " ++ e)) ∧
    URLIndexGet url req isEmptyTile (.readErr e) errCh mapEnum =
      .ok ([emptyTileGranule req], req.NameSpaces,
        sendError errCh ("Error parsing response body from " ++ url ++ ". Error: " ++ e)) ∧
    URLIndexGet url req isEmptyTile (.jsonErr e) errCh mapEnum =
      .ok ([emptyTileGranule req], req.NameSpaces,
        sendError errCh ("Problem parsing JSON response from " ++ url ++ ". Error: " ++ e)) ∧
    sendError none m = some m ∧
    sendError (some e0) m = some e0 :=
  ⟨rfl, rfl, rfl, rfl, rfl⟩

/-- C2.  When the request's collection is empty after trimming
whitespace, `Run` emits exactly one empty-tile sentinel granule — path
`NULL`, the empty-tile namespace, raster type `Byte`, the request's width
and height — and returns without issuing any metadata query. -/
theorem tileIndexer_emptyCollection_sentinel
    (req : GeoTileRequestM) (canon : Except Unit (List ℚ))
    (h : (goTrimSpace req.Collection).length = 0) :
    runStep req canon = ([emptyTileGranule req], []) ∧
    emptyTileGranule req =
      { Path := "NULL", NameSpace := EmptyTileNS, RasterType := "Byte",
        TimeStamp := 0, BandIdx := 0, Height := req.Height, Width := req.Width,
        OffX := req.OffX, OffY := req.OffY, CRS := req.CRS, BBox := req.BBox } := by
  refine ⟨?_, rfl⟩
  simp [runStep, h]

/-- C8.  Frame effect of `scaleNew`: for a Byte raster the input buffer
is overwritten in place (no-data samples become 255) and the returned
`ByteRaster` is built from that same mutated buffer, whereas every other
element type leaves the input raster's data untouched and writes to a
fresh output buffer. -/
theorem scaleNew_frame_effect (norm : ℚ → ℚ) (r : Raster)
    (params : ScaleParams) (res : ScaleResult)
    (h : scaleNew norm r params = some res) :
    match r with
    | .byte data nd =>
        res.inputAfter = .byte res.outData nd ∧
        ∀ i a, data.get? i = some a → a = wrapU8 (goTrunc nd) →
          res.outData.get? i = some 255
    | _ => res.inputAfter = r := by
  cases r with
  | byte data nd =>
    simp only [scaleNew, Option.map_eq_some'] at h
    obtain ⟨out, hout, hres⟩ := h
    subst hres
    refine ⟨rfl, ?_⟩
    simp only [scaleNewByte] at hout
    obtain ⟨-, hget⟩ := mapMO_get? _ data out hout
    intro i a hia ha
    obtain ⟨b, hb, hout'⟩ := hget i a hia
    rw [uintLikeElem, if_pos ha] at hb
    simp only [Option.some.injEq] at hb
    subst hb
    exact hout'
  | signedByte data nd =>
    simp only [scaleNew, Option.map_eq_some'] at h
    obtain ⟨out, -, hres⟩ := h
    subst hres
    rfl
  | int16 data nd =>
    simp only [scaleNew, Option.map_eq_some'] at h
    obtain ⟨out, -, hres⟩ := h
    subst hres
    rfl
  | uint16 data nd =>
    simp only [scaleNew, Option.map_eq_some'] at h
    obtain ⟨out, -, hres⟩ := h
    subst hres
    rfl
  | float32 data nd =>
    simp only [scaleNew, Option.map_eq_some'] at h
    obtain ⟨out, -, hres⟩ := h
    subst hres
    rfl

/-- C8 witness: on the Byte raster `[7, 255]` (no-data 255, clip 10) the
call succeeds, the returned raster is built from the mutated input buffer
`[231, 255]`, and the no-data sample at index 1 was overwritten with
255. -/
theorem scaleNew_frame_effect_witness :
    scaleNew id (.byte [7, 255] 255) ⟨0, 10, 0⟩ =
      some ⟨[231, 255], .byte [231, 255] 255⟩ ∧
    (ScaleResult.mk [231, 255] (.byte [231, 255] 255)).inputAfter =
      Raster.byte [231, 255] 255 ∧
    (([231, 255] : List ℤ).get? 1 = some 255) :=
  ⟨by decide,
   (scaleNew_frame_effect id (.byte [7, 255] 255) ⟨0, 10, 0⟩
      ⟨[231, 255], .byte [231, 255] 255⟩ (by decide)).1,
   (scaleNew_frame_effect id (.byte [7, 255] 255) ⟨0, 10, 0⟩
      ⟨[231, 255], .byte [231, 255] 255⟩ (by decide)).2 1 255 (by decide) (by decide)⟩

/-- C5 counterexample.  The claim says an index-range selector "appends
only in-range indices not yet selected", but the range branch never
records its appended indices in `idxLookup`: two identical range
selectors `{start=0, end=1, step=1}` on a two-parameter axis produce the
duplicated selection `[0, 0, 1, 1]`. -/
theorem overlapping_range_selectors_append_duplicates :
    doSelectionByIndices sampleAxisC5 sampleTaC5 =
      .ok (false, ⟨"x", [10, 20], [1], "enum", [0, 0, 1, 1], [10, 10, 20, 20], 0, 0⟩) ∧
    ¬([0, 0, 1, 1] : List ℤ).Nodup :=
  ⟨by decide, by decide⟩

/-- C5 amended.  For a single index-range selector on a fresh enum axis:
defaults are `start = 0`, `end = len(params) - 1`, `step = 1`; an `end`
beyond `len(params) - 1` flags `outRange` (before any other check); then
`start > end` and `step < 1` fail with the Go error strings; otherwise
(for a non-negative start — a negative one panics) the selection is the
arithmetic progression `start, start+step, … ≤ end`, strictly increasing
(hence sorted ascending and duplicate-free), within `[start, end]`, and
paired with the parameter values.  Deduplication against previously
selected indices applies only to indices recorded by *point* selectors
(see the counterexample). -/
theorem doSelectionByIndices_range_spec
    (axis : DatasetAxis) (tileAxis : GeoTileAxis) (sel : GeoTileIdxSelector)
    (hgrid : axis.Grid = "enum")
    (hidx0 : axis.IntersectionIdx = [])
    (hval0 : axis.IntersectionValues = [])
    (hsels : tileAxis.IdxSelectors = [sel])
    (hall : sel.IsAll = false)
    (hrange : sel.IsRange = true) :
    ((axis.Params.length : ℤ) - 1 < sel.End.getD ((axis.Params.length : ℤ) - 1) →
       doSelectionByIndices axis tileAxis = .ok (true, axis)) ∧
    (sel.End.getD ((axis.Params.length : ℤ) - 1) ≤ (axis.Params.length : ℤ) - 1 →
     sel.End.getD ((axis.Params.length : ℤ) - 1) < sel.Start.getD 0 →
       doSelectionByIndices axis tileAxis =
         .error "starting index must be lower or equal to ending index") ∧
    (sel.End.getD ((axis.Params.length : ℤ) - 1) ≤ (axis.Params.length : ℤ) - 1 →
     sel.Start.getD 0 ≤ sel.End.getD ((axis.Params.length : ℤ) - 1) →
     sel.Step.getD 1 < 1 →
       doSelectionByIndices axis tileAxis =
         .error "indexing step must be greater or equal to 1") ∧
    (sel.End.getD ((axis.Params.length : ℤ) - 1) ≤ (axis.Params.length : ℤ) - 1 →
     sel.Start.getD 0 ≤ sel.End.getD ((axis.Params.length : ℤ) - 1) →
     1 ≤ sel.Step.getD 1 →
     0 ≤ sel.Start.getD 0 →
       (doSelectionByIndices axis tileAxis =
         .ok (false, { axis with
           IntersectionIdx :=
             rangeIdxSeq (sel.Start.getD 0) (sel.End.getD ((axis.Params.length : ℤ) - 1)) (sel.Step.getD 1),
           IntersectionValues :=
             (rangeIdxSeq (sel.Start.getD 0) (sel.End.getD ((axis.Params.length : ℤ) - 1)) (sel.Step.getD 1)).map
               (fun i => axis.Params.getD i.toNat 0) })) ∧
       (rangeIdxSeq (sel.Start.getD 0) (sel.End.getD ((axis.Params.length : ℤ) - 1)) (sel.Step.getD 1)).Pairwise (· < ·) ∧
       (∀ i ∈ rangeIdxSeq (sel.Start.getD 0) (sel.End.getD ((axis.Params.length : ℤ) - 1)) (sel.Step.getD 1),
          sel.Start.getD 0 ≤ i ∧ i ≤ sel.End.getD ((axis.Params.length : ℤ) - 1))) := by
  have hne : ¬axis.Grid ≠ "enum" := by simp [hgrid]
  have hnall : ¬(sel.IsAll = true) := by simp [hall]
  have hnrange : ¬¬(sel.IsRange = true) := fun hcon => hcon (by rw [hrange])
  refine ⟨?_, ?_, ?_, ?_⟩
  · intro hc
    have hloop : doSelIdxLoop axis.Params [] [] [] [sel] = .outRange [] [] := by
      simp only [doSelIdxLoop]
      rw [if_neg hnall, if_neg hnrange, if_pos hc]
    rw [doSelectionByIndices, if_neg hne, hsels, hidx0, hval0, hloop]
    show Except.ok (true,
      { axis with IntersectionIdx := [], IntersectionValues := [] }) = .ok (true, axis)
    have haxis : ({ axis with IntersectionIdx := [], IntersectionValues := [] } :
        DatasetAxis) = axis := by
      cases axis
      simp_all
    rw [haxis]
  · intro hc1 hc2
    have hloop : doSelIdxLoop axis.Params [] [] [] [sel] =
        .fail "starting index must be lower or equal to ending index" := by
      simp only [doSelIdxLoop]
      rw [if_neg hnall, if_neg hnrange, if_neg (not_lt.mpr hc1), if_pos hc2]
    rw [doSelectionByIndices, if_neg hne, hsels, hidx0, hval0, hloop]
  · intro hc1 hc2 hc3
    have hloop : doSelIdxLoop axis.Params [] [] [] [sel] =
        .fail "indexing step must be greater or equal to 1" := by
      simp only [doSelIdxLoop]
      rw [if_neg hnall, if_neg hnrange, if_neg (not_lt.mpr hc1),
        if_neg (not_lt.mpr hc2), if_pos hc3]
    rw [doSelectionByIndices, if_neg hne, hsels, hidx0, hval0, hloop]
  · intro hc1 hc2 hc3 hc4
    have hpw : (rangeIdxSeq (sel.Start.getD 0)
        (sel.End.getD ((axis.Params.length : ℤ) - 1)) (sel.Step.getD 1)).Pairwise (· < ·) :=
      rangeIdxSeq_pairwise _ _ _ hc3
    refine ⟨?_, hpw, fun i hi => rangeIdxSeq_mem _ _ _ i hc3 hi⟩
    have hfilter :
        (rangeIdxSeq (sel.Start.getD 0)
            (sel.End.getD ((axis.Params.length : ℤ) - 1)) (sel.Step.getD 1)).filter
          (fun i => decide (i ∉ ([] : List ℤ))) =
        rangeIdxSeq (sel.Start.getD 0)
            (sel.End.getD ((axis.Params.length : ℤ) - 1)) (sel.Step.getD 1) := by
      simp
    have hloop : doSelIdxLoop axis.Params [] [] [] [sel] =
        .done (rangeIdxSeq (sel.Start.getD 0)
            (sel.End.getD ((axis.Params.length : ℤ) - 1)) (sel.Step.getD 1))
          ((rangeIdxSeq (sel.Start.getD 0)
            (sel.End.getD ((axis.Params.length : ℤ) - 1)) (sel.Step.getD 1)).map
            (fun i => axis.Params.getD i.toNat 0)) := by
      simp only [doSelIdxLoop]
      rw [if_neg hnall, if_neg hnrange, if_neg (not_lt.mpr hc1),
        if_neg (not_lt.mpr hc2), if_neg (not_lt.mpr hc3), if_neg (not_lt.mpr hc4),
        hfilter]
      simp only [doSelIdxLoop, List.nil_append]
    rw [doSelectionByIndices, if_neg hne, hsels, hidx0, hval0, hloop]
    have hzip := zip_self_map (fun i : ℤ => axis.Params.getD i.toNat 0)
      (rangeIdxSeq (sel.Start.getD 0)
        (sel.End.getD ((axis.Params.length : ℤ) - 1)) (sel.Step.getD 1))
    have hsortid : selArgSort
        (rangeIdxSeq (sel.Start.getD 0)
          (sel.End.getD ((axis.Params.length : ℤ) - 1)) (sel.Step.getD 1))
        ((rangeIdxSeq (sel.Start.getD 0)
          (sel.End.getD ((axis.Params.length : ℤ) - 1)) (sel.Step.getD 1)).map
          (fun i => axis.Params.getD i.toNat 0)) =
        (rangeIdxSeq (sel.Start.getD 0)
          (sel.End.getD ((axis.Params.length : ℤ) - 1)) (sel.Step.getD 1)).map
          (fun i => (i, axis.Params.getD i.toNat 0)) := by
      rw [selArgSort, hzip, goSortBy_id_of_pairwise]
      rw [List.pairwise_map]
      refine hpw.imp ?_
      intro a b hab
      simp [not_le.mpr hab]
    simp only [hsortid, List.map_map]
    rw [show ((fun x : ℤ × ℚ => x.1) ∘ fun i : ℤ => (i, axis.Params.getD i.toNat 0)) =
      fun i : ℤ => i from rfl]
    simp

/-- C5 witness (spec boundary scenario 4): selector `{start=0, end=6,
step=2}` on an eight-parameter axis selects indices `[0, 2, 4, 6]`,
sorted ascending, paired with the parameter values. -/
theorem doSelectionByIndices_range_spec_witness :
    sampleAxis8.Grid = "enum" ∧ sampleAxis8.Params.length = 8 ∧
    doSelectionByIndices sampleAxis8 sampleTa8 =
      .ok (false, ⟨"x", [10, 20, 30, 40, 50, 60, 70, 80], [1], "enum",
        [0, 2, 4, 6], [10, 30, 50, 70], 0, 0⟩) := by
  refine ⟨by decide, by decide, ?_⟩
  have h := (doSelectionByIndices_range_spec sampleAxis8 sampleTa8
    ⟨some 0, some 6, some 2, true, false⟩ (by decide) (by decide) (by decide)
    rfl (by decide) (by decide)).2.2.2 (by decide) (by decide) (by decide) (by decide)
  simpa using h.1

/-- C3 counterexample.  The NameSpaces list is *not* deterministic across
two runs on the same metadata response: the per-group `bandNsList` is
materialised by iterating a Go map (randomized order) and sorted by
`sort.Slice` with the non-strict comparator `Val <= Val`, which cannot
restore insertion order on ties.  On a response whose dataset produces
two distinct namespaces with equal band timestamps (`lev1+lev2 = 7`
twice), presenting the group in insertion order versus reversed order —
both legitimate Go map iterations — yields different NameSpaces lists. -/
theorem nameSpaces_tie_order_nondeterministic :
    URLIndexGet "u" sampleReqC3 false (.ok sampleMdC3) none id ≠
      URLIndexGet "u" sampleReqC3 false (.ok sampleMdC3) none List.reverse ∧
    (URLIndexGet "u" sampleReqC3 false (.ok sampleMdC3) none id).map (fun r => r.2.1) =
      .ok ["ns#lev1=3,lev2=3", "ns#lev1=4,lev2=3", "ns#lev1=3,lev2=4", "ns#lev1=4,lev2=4"] ∧
    (URLIndexGet "u" sampleReqC3 false (.ok sampleMdC3) none List.reverse).map (fun r => r.2.1) =
      .ok ["ns#lev1=3,lev2=3", "ns#lev1=3,lev2=4", "ns#lev1=4,lev2=3", "ns#lev1=4,lev2=4"] ∧
    (∀ l : List (String × ℚ), (List.reverse l).Perm l) :=
  ⟨by decide, by decide, by decide, fun l => List.reverse_perm l⟩

/-- C3 amended.  For a fixed map-iteration order the indexer's per-group
output is deterministic and consists of the group's namespaces sorted by
non-decreasing aggregation timestamp — a permutation of the group — but
ties are resolved by the randomized map iteration fed through the
unstable sort, not by insertion order. -/
theorem nameSpaces_sorted_perm
    (mapEnum : List (String × ℚ) → List (String × ℚ))
    (hp : ∀ g : List (String × ℚ), (mapEnum g).Perm g)
    (l : List (String × ℚ)) :
    (sortBandNsGroup (mapEnum l)).Perm l ∧
    (sortBandNsGroup (mapEnum l)).Pairwise (fun a b => a.2 ≤ b.2) := by
  constructor
  · exact (goSortBy_perm _ _).trans (hp l)
  · have h := goSortBy_sorted (fun a b : String × ℚ => decide (a.2 ≤ b.2))
      (fun a b hab => by
        simp only [decide_eq_false_iff_not, not_le] at hab
        simpa using le_of_lt hab)
      (fun a b c hab hbc => by
        simp only [decide_eq_true_eq] at hab hbc ⊢
        exact le_trans hab hbc)
      (mapEnum l)
    refine h.imp ?_
    intro a b hab
    simpa using hab

/-- C3 amended witness: with the identity iteration order, the group
`[(a,2),(b,1)]` is emitted as a timestamp-sorted permutation. -/
theorem nameSpaces_sorted_perm_witness :
    (∀ g : List (String × ℚ), (id g).Perm g) ∧
    (sortBandNsGroup (id [("a", 2), ("b", 1)])).Perm [("a", 2), ("b", 1)] ∧
    (sortBandNsGroup (id [("a", 2), ("b", 1)])).Pairwise
      (fun a b : String × ℚ => a.2 ≤ b.2) :=
  ⟨fun g => List.Perm.refl g,
   (nameSpaces_sorted_perm id (fun g => List.Perm.refl g) [("a", 2), ("b", 1)]).1,
   (nameSpaces_sorted_perm id (fun g => List.Perm.refl g) [("a", 2), ("b", 1)]).2⟩

/-- C4.  For every granule of the Cartesian expansion of a dataset whose
axes went through `processAxis`: every axis's selected indices are
stride-multiples (the per-axis `IntersectionIdx[i] *= Strides[0]` step),
the granule's band index equals `1 +` the sum over all axes of the
(stride-multiplied) selected indices picked by its combination, and when
all those entries are non-negative `bandIdx ≥ 1`. -/
theorem bandIdx_stride_sum
    (isEmptyTile : Bool) (h w : ℤ) (ds : GDALDatasetM)
    (gl : List ExpGran) (g : ExpGran)
    (haxes : ∀ ax ∈ ds.Axes, ∃ reqAxes am st et ts lk o lk' axPre,
        processAxis reqAxes am st et ts lk axPre = .ok (o, ax, lk'))
    (hexp : expandDataset isEmptyTile h w ds = .ok gl)
    (hg : g ∈ gl) :
    (∀ ax ∈ ds.Axes, ∃ raw : List ℤ,
        ax.IntersectionIdx = raw.map (· * ax.Strides.headD 0)) ∧
    (∃ combo : List ℕ,
        g.BandIdx = 1 + ((ds.Axes.zip combo).map
          (fun p => p.1.IntersectionIdx.getD p.2 0)).sum) ∧
    ((∀ ax ∈ ds.Axes, ∀ i ∈ ax.IntersectionIdx, 0 ≤ i) → 1 ≤ g.BandIdx) := by
  have hstride : ∀ ax ∈ ds.Axes, ∃ raw : List ℤ,
      ax.IntersectionIdx = raw.map (· * ax.Strides.headD 0) := by
    intro ax hax
    obtain ⟨reqAxes, am, st, et, ts, lk, o, lk', axPre, heq⟩ := haxes ax hax
    rw [processAxis.eq_def] at heq
    split at heq
    · exact absurd heq (by simp)
    · rename_i o1 axis3 lk1 hsel
      split at heq
      · exact absurd heq (by simp)
      · rename_i s0 tl hs
        simp only [Except.ok.injEq, Prod.mk.injEq] at heq
        obtain ⟨-, hax', -⟩ := heq
        refine ⟨axis3.IntersectionIdx, ?_⟩
        rw [← hax']
        simp [hs]
  obtain ⟨combo, hcombo, hgdef⟩ :
      ∃ combo ∈ cartProd (ds.Axes.map (fun ax => List.range ax.IntersectionIdx.length)),
        g = granuleOfCombo (if isEmptyTile then EmptyTileNS else ds.NameSpace)
          ds.Axes combo ds h w := by
    rw [expandDataset] at hexp
    cases hax0 : ds.Axes with
    | nil => rw [hax0] at hexp; exact absurd hexp (by simp)
    | cons a0 rest =>
      rw [hax0] at hexp
      replace hexp :
          (if a0.IntersectionIdx.length = 0 then Except.ok ([] : List ExpGran)
           else if (a0 :: rest).any (fun ax => ax.IntersectionIdx.isEmpty) then
             Except.error (IndexerAbort.panic "panic: index out of range (empty axis intersection)")
           else Except.ok
             ((cartProd ((a0 :: rest).map (fun ax => List.range ax.IntersectionIdx.length))).map
               (fun combo => granuleOfCombo (if isEmptyTile then EmptyTileNS else ds.NameSpace)
                 (a0 :: rest) combo ds h w))) = .ok gl := hexp
      by_cases h0 : a0.IntersectionIdx.length = 0
      · rw [if_pos h0] at hexp
        simp only [Except.ok.injEq] at hexp
        subst hexp
        exact absurd hg (by simp)
      · rw [if_neg h0] at hexp
        by_cases hany : (a0 :: rest).any (fun ax => ax.IntersectionIdx.isEmpty)
        · rw [if_pos hany] at hexp
          exact absurd hexp (by simp)
        · rw [if_neg hany] at hexp
          simp only [Except.ok.injEq] at hexp
          subst hexp
          obtain ⟨combo, hc, hgc⟩ := List.mem_map.mp hg
          exact ⟨combo, hc, hgc.symm⟩
  have hband : g.BandIdx = 1 + ((ds.Axes.zip combo).map
      (fun p => p.1.IntersectionIdx.getD p.2 0)).sum := by
    rw [hgdef]
    simp only [granuleOfCombo]
    exact foldl_add_map_sum _ _ 1
  refine ⟨hstride, ⟨combo, hband⟩, ?_⟩
  intro hpos
  rw [hband]
  have hsum : 0 ≤ ((ds.Axes.zip combo).map
      (fun p => p.1.IntersectionIdx.getD p.2 0)).sum := by
    apply List.sum_nonneg
    intro x hx
    obtain ⟨p, hp, hpx⟩ := List.mem_map.mp hx
    rw [← hpx]
    exact getD_zero_nonneg _ (hpos p.1 (List.of_mem_zip hp).1) _
  omega

/-- C4 witness: the two-axis sample dataset; its first expansion granule
has `bandIdx = 1 + (0·1 + 0·1) = 1 ≥ 1`. -/
theorem bandIdx_stride_sum_witness :
    expandDataset false 256 256 sampleDsC4 = .ok sampleGlC4 ∧
    sampleGlC4.headD ⟨"", "", "", "", 0, 0, 0, 0, "", 0, false⟩ ∈ sampleGlC4 ∧
    (∀ ax ∈ sampleDsC4.Axes, ∃ raw : List ℤ,
        ax.IntersectionIdx = raw.map (· * ax.Strides.headD 0)) ∧
    1 ≤ (sampleGlC4.headD ⟨"", "", "", "", 0, 0, 0, 0, "", 0, false⟩).BandIdx := by
  have haxes : ∀ ax ∈ sampleDsC4.Axes, ∃ reqAxes am st et ts lk o lk' axPre,
      processAxis reqAxes am st et ts lk axPre = .ok (o, ax, lk') := by
    intro ax hax
    rcases List.mem_cons.mp hax with h1 | hax2
    · exact ⟨[("lev1", taAllDisagg)], 0, some 0, none, [], [], false,
        [("lev1", [3, 4])], sampleAxPre1, by rw [h1]; decide⟩
    · rcases List.mem_cons.mp hax2 with h2 | hax3
      · exact ⟨[("lev2", taAllDisagg)], 0, some 0, none, [], [], false,
          [("lev2", [4, 3])], sampleAxPre2, by rw [h2]; decide⟩
      · exact absurd hax3 (by simp)
  have hmain := bandIdx_stride_sum false 256 256 sampleDsC4 sampleGlC4
    (sampleGlC4.headD ⟨"", "", "", "", 0, 0, 0, 0, "", 0, false⟩) haxes
    (by decide) (by decide)
  exact ⟨by decide, by decide, hmain.1, hmain.2.2 (by decide)⟩

/-- C2 witness: the whitespace-only collection, width = height = 256. -/
theorem tileIndexer_emptyCollection_sentinel_witness :
    (goTrimSpace sampleReqEmptyCol.Collection).length = 0 ∧
    runStep sampleReqEmptyCol (.error ()) = ([emptyTileGranule sampleReqEmptyCol], []) ∧
    (emptyTileGranule sampleReqEmptyCol).Path = "NULL" ∧
    (emptyTileGranule sampleReqEmptyCol).NameSpace = EmptyTileNS ∧
    (emptyTileGranule sampleReqEmptyCol).RasterType = "Byte" ∧
    (emptyTileGranule sampleReqEmptyCol).Width = 256 ∧
    (emptyTileGranule sampleReqEmptyCol).Height = 256 :=
  ⟨by decide,
   (tileIndexer_emptyCollection_sentinel sampleReqEmptyCol (.error ()) (by decide)).1,
   by decide, by decide, by decide, by decide, by decide⟩

/-- C10.  With a configured spatial extent (length ≥ 4) and a non-blank
collection, `Run`'s spatial-extent intersection emits the empty-tile
sentinel and stops exactly when the clipped bounding box is strictly
inverted (`xmax < xmin` or `ymax < ymin`); otherwise — including a
degenerate intersection of zero width or height — no granule is emitted
directly and the metadata query list is non-empty. -/
theorem spatialExtent_strict_inversion_only (req0 : GeoTileRequestM) (cb : List ℚ)
    (hcol : (goTrimSpace req0.Collection).length ≠ 0)
    (hse : 4 ≤ req0.SpatialExtent.length) :
    (runStep req0 (.ok cb) = ([emptyTileGranule req0], []) ↔
      ((clipBBox cb req0.SpatialExtent).getD 2 0 < (clipBBox cb req0.SpatialExtent).getD 0 0 ∨
       (clipBBox cb req0.SpatialExtent).getD 3 0 < (clipBBox cb req0.SpatialExtent).getD 1 0)) ∧
    (¬((clipBBox cb req0.SpatialExtent).getD 2 0 < (clipBBox cb req0.SpatialExtent).getD 0 0 ∨
       (clipBBox cb req0.SpatialExtent).getD 3 0 < (clipBBox cb req0.SpatialExtent).getD 1 0) →
      (runStep req0 (.ok cb)).1 = [] ∧ (runStep req0 (.ok cb)).2 ≠ []) := by
  have hPse : (nsFixup (timeAxisStep req0)).SpatialExtent = req0.SpatialExtent :=
    ((nsFixup_preserves (timeAxisStep req0)).2.2.2.2.2.2.2).trans
      ((timeAxisStep_preserves req0).2.2.2.2.2.2.2.1)
  obtain ⟨hA, hB⟩ := runStepBody_spatial (nsFixup (timeAxisStep req0)) cb
    (by rw [hPse]; exact hse)
  rw [hPse] at hA hB
  have hrs : runStep req0 (.ok cb) = runStepBody (nsFixup (timeAxisStep req0)) (.ok cb) := by
    rw [runStep, if_neg hcol]
  refine ⟨⟨?_, ?_⟩, ?_⟩
  · intro hsent
    by_contra hninv
    have h1 := (hB hninv).1
    rw [← hrs, hsent] at h1
    simp at h1
  · intro hinv
    rw [hrs, hA hinv, emptyTileGranule_fixups]
  · intro hninv
    rw [hrs]
    exact hB hninv

/-- C10 witness: the zero-width clip `[2,0,2,2]` (extent `[2,0,4,2]`,
bbox `[0,0,2,2]`) is not treated as empty and still yields queries, while
the strictly inverted clip `[3,0,2,2]` yields exactly the sentinel. -/
theorem spatialExtent_strict_inversion_only_witness :
    ((goTrimSpace sampleReq.Collection).length ≠ 0 ∧
     4 ≤ sampleReq.SpatialExtent.length ∧
     (clipBBox [0, 0, 2, 2] sampleReq.SpatialExtent).getD 2 0 =
       (clipBBox [0, 0, 2, 2] sampleReq.SpatialExtent).getD 0 0) ∧
    (runStep sampleReq (.ok [0, 0, 2, 2])).1 = [] ∧
    (runStep sampleReq (.ok [0, 0, 2, 2])).2 ≠ [] ∧
    runStep sampleReqC10Inv (.ok [0, 0, 2, 2]) =
      ([emptyTileGranule sampleReqC10Inv], []) :=
  ⟨⟨by decide, by decide, by decide⟩,
   ((spatialExtent_strict_inversion_only sampleReq [0, 0, 2, 2]
      (by decide) (by decide)).2 (by decide)).1,
   ((spatialExtent_strict_inversion_only sampleReq [0, 0, 2, 2]
      (by decide) (by decide)).2 (by decide)).2,
   (spatialExtent_strict_inversion_only sampleReqC10Inv [0, 0, 2, 2]
      (by decide) (by decide)).1.mpr (by decide)⟩

end GSky
